import Mathlib

/-!
The sfizz LV2 plugin: worker coordination protocol, and the library helpers
exercised by the unit tests.

A shallow embedding of `lv2/sfizz.c`.  The plugin instance (`sfizz_plugin_t`)
is a record; every C function that mutates it becomes a function on an
execution context `Exec` holding the instance together with the ordered list
of calls the function made to its collaborators (the host's worker scheduler,
the worker's respond callback, the atom forge, the logger and the sfizz
engine).  The sfizz engine library, whose sources are outside this file's
scope, is a parameter: an abstract engine state `σ` and a record `SfizzAPI σ`
of the entry points of `sfizz.h` that the plugin calls.

`Opcode`, `readNoteValue` and `ADSREnvelope` belong to that library; only
their unit tests are at hand, so they are modelled from the specification and
marked as such.

Conventions
* `int` is `Int`, `unsigned int`/`uint32_t` is `Nat`; conversions between
  them are the explicit 32-bit wrappers `wrap_int32` / `to_uint32`.
* a finite `float` is a dyadic number `mant * 2 ^ exp` (`CFloat`);
  `(int)f` is truncation toward zero.  NaN, infinities and values outside
  the `int` range have no defined conversion in C; the model wraps the
  truncated value to 32 bits.
* an atom is its header (`size`, `type`) and its raw body bytes; integers in
  bodies are little-endian.
* C strings are lists of bytes without the terminating zero.
-/

namespace Sfizz

/-! ## Machine integers and floats -/

/-- Conversion of an integer to `unsigned int` (32 bits). -/
def to_uint32 (x : Int) : Nat := (x % 4294967296).toNat

/-- Conversion of an integer to `int` (32 bits, two's complement). -/
def wrap_int32 (x : Int) : Int := (x + 2147483648) % 4294967296 - 2147483648

/-- A finite single-precision value, `mant * 2 ^ exp`. -/
structure CFloat where
  mant : Int
  exp : Int
deriving DecidableEq, Repr

/-- Truncation toward zero of a finite float, as a mathematical integer. -/
def CFloat.trunc (f : CFloat) : Int :=
  if 0 ≤ f.exp then f.mant * 2 ^ f.exp.toNat else Int.tdiv f.mant (2 ^ (-f.exp).toNat)

/-- The C cast `(int)f`. -/
def cast_int (f : CFloat) : Int := wrap_int32 f.trunc

/-- The C comparison `f > 0`. -/
def CFloat.pos (f : CFloat) : Bool := decide (0 < f.mant)

/-! ## Constants of `sfizz.c` -/

def MAX_BLOCK_SIZE : Int := 8192
def MAX_PATH_SIZE : Nat := 1024
def MAX_VOICES : Int := 256
def DEFAULT_VOICES : Int := 64
/-- The value of `SFIZZ_OVERSAMPLING_X1` in `sfizz.h`. -/
def DEFAULT_OVERSAMPLING : Int := 1
def DEFAULT_PRELOAD : Nat := 8192
def LOG_SAMPLE_COUNT : Int := 48000

/-! ## Atoms -/

/-- An `LV2_URID`. -/
abbrev LV2_URID := Nat

/-- An atom: header and raw body bytes. -/
structure LV2_Atom where
  size : Nat
  type : LV2_URID
  body : List Nat
deriving DecidableEq, Repr

/-- The value of `sizeof(LV2_Atom)`. -/
def sizeof_LV2_Atom : Nat := 8

/-- The helper `lv2_atom_total_size` of `lv2/atom/util.h`. -/
def lv2_atom_total_size (a : LV2_Atom) : Nat := (sizeof_LV2_Atom + a.size) % 4294967296

/-- Little-endian bytes of a 32-bit word. -/
def le32 (n : Nat) : List Nat :=
  [n % 256, n / 256 % 256, n / 65536 % 256, n / 16777216 % 256]

/-- Read of a `uint32_t` at the start of a body (absent bytes read as zero). -/
def read_uint32 (b : List Nat) : Nat :=
  b.getD 0 0 % 256 + 256 * (b.getD 1 0 % 256) + 65536 * (b.getD 2 0 % 256)
    + 16777216 * (b.getD 3 0 % 256)

/-- Read of an `int` at the start of a body. -/
def read_int32 (b : List Nat) : Int := wrap_int32 (read_uint32 b)

/-- The C string starting at the first byte of a body. -/
def c_string (b : List Nat) : List Nat := b.takeWhile (fun c => c != 0)

/-- An `LV2_Atom_Int` with the given type and body, as the check routines build it. -/
def atom_int (type : LV2_URID) (body : Int) : LV2_Atom :=
  { size := 4, type := type, body := le32 (to_uint32 body) }

/-- An `LV2_Atom_Object` body: its `otype` and its properties (key, value). -/
structure LV2_Atom_Object where
  otype : LV2_URID
  props : List (LV2_URID × LV2_Atom)
deriving DecidableEq, Repr

/-- An event of the control sequence.  `obj` is the view of the body that the
cast to `LV2_Atom_Object` gives; it is read only when `body.type` is the
Object URID. -/
structure LV2_Atom_Event where
  frames : Int
  body : LV2_Atom
  obj : LV2_Atom_Object
deriving DecidableEq, Repr

/-- The helper `lv2_atom_object_get` of `lv2/atom/util.h` for a single query:
the value of the first property with the given key.  A zero key ends the
variadic query list, so nothing is looked up. -/
def lv2_atom_object_get (obj : LV2_Atom_Object) (key : LV2_URID) : Option LV2_Atom :=
  if key = 0 then none else (obj.props.find? (fun p => p.1 == key)).map (fun p => p.2)

/-! ## Worker interface -/

/-- The enum `LV2_Worker_Status` of `lv2/worker/worker.h`. -/
inductive LV2_Worker_Status where
  | LV2_WORKER_SUCCESS
  | LV2_WORKER_ERR_UNKNOWN
  | LV2_WORKER_ERR_NO_SPACE
deriving DecidableEq, Repr

open LV2_Worker_Status

/-- Calls made by the plugin to its collaborators, in program order. -/
inductive Call where
  | schedule_work (size : Nat) (data : LV2_Atom)
  | respond (size : Nat) (data : LV2_Atom)
  | lv2_log_error
  | lv2_log_warning
  | lv2_log_note
  | forge_set_buffer (capacity : Nat)
  | forge_sequence_head
  | forge_file_path (path : List Nat)
  | sfizz_load_file (path : List Nat)
  | sfizz_set_num_voices (n : Int)
  | sfizz_get_num_voices
  | sfizz_set_preload_size (n : Nat)
  | sfizz_get_preload_size
  | sfizz_set_oversampling_factor (f : Int)
  | sfizz_get_oversampling_factor
  | sfizz_should_reload_file
  | sfizz_send_note_on (delay : Int) (note : Int) (velocity : Nat)
  | sfizz_send_note_off (delay : Int) (note : Int) (velocity : Nat)
  | sfizz_send_cc (delay : Int) (cc : Int) (value : Nat)
  | sfizz_send_pitch_wheel (delay : Int) (pitch : Int)
  | sfizz_set_volume (v : CFloat)
  | sfizz_enable_freewheeling
  | sfizz_disable_freewheeling
  | sfizz_render_block (channels : Nat) (frames : Int)
  | sfizz_get_unknown_opcodes
  | store (key : LV2_URID) (value : List Nat) (size : Nat) (type : LV2_URID)
deriving DecidableEq, Repr

/-- The entry points of `sfizz.h` used by the plugin, over an engine state `σ`. -/
structure SfizzAPI (σ : Type) where
  sfizz_create_synth : σ
  sfizz_load_file : σ → List Nat → Bool × σ
  sfizz_set_num_voices : σ → Int → σ
  sfizz_get_num_voices : σ → Int
  sfizz_set_preload_size : σ → Nat → σ
  sfizz_get_preload_size : σ → Nat
  sfizz_set_oversampling_factor : σ → Int → σ
  sfizz_get_oversampling_factor : σ → Int
  sfizz_should_reload_file : σ → Bool
  sfizz_send_note_on : σ → Int → Int → Nat → σ
  sfizz_send_note_off : σ → Int → Int → Nat → σ
  sfizz_send_cc : σ → Int → Int → Nat → σ
  sfizz_send_pitch_wheel : σ → Int → Int → σ
  sfizz_set_volume : σ → CFloat → σ
  sfizz_enable_freewheeling : σ → σ
  sfizz_disable_freewheeling : σ → σ
  sfizz_render_block : σ → Nat → Int → σ
  sfizz_get_unknown_opcodes : σ → Option (List Nat)

/-- The host's worker scheduler: the status returned by the `k`-th call of
`schedule_work` (counted from 0 within one plugin call) for the given size
and data. -/
abbrev Scheduler := Nat → Nat → LV2_Atom → LV2_Worker_Status

/-! ## The plugin instance -/

/-- The struct `sfizz_plugin_t` without its port pointers (see `Ports`) and
without the feature pointers other than the presence of `unmap`. -/
structure sfizz_plugin_t (σ : Type) where
  unmap : Bool
  midi_event_uri : LV2_URID
  options_interface_uri : LV2_URID
  max_block_length_uri : LV2_URID
  nominal_block_length_uri : LV2_URID
  sample_rate_uri : LV2_URID
  atom_object_uri : LV2_URID
  atom_float_uri : LV2_URID
  atom_int_uri : LV2_URID
  atom_urid_uri : LV2_URID
  atom_path_uri : LV2_URID
  patch_set_uri : LV2_URID
  patch_get_uri : LV2_URID
  patch_put_uri : LV2_URID
  patch_property_uri : LV2_URID
  patch_value_uri : LV2_URID
  patch_body_uri : LV2_URID
  state_changed_uri : LV2_URID
  sfizz_sfz_file_uri : LV2_URID
  sfizz_num_voices_uri : LV2_URID
  sfizz_preload_size_uri : LV2_URID
  sfizz_oversampling_uri : LV2_URID
  sfizz_log_status_uri : LV2_URID
  sfizz_check_modification_uri : LV2_URID
  synth : σ
  expect_nominal_block_length : Bool
  sfz_file_path : List Nat
  num_voices : Int
  preload_size : Nat
  oversampling : Int
  changing_state : Bool
  max_block_size : Int
  sample_counter : Int
  sample_rate : CFloat

/-- What the port pointers of the instance point to during one `run` call.
`none` is a null pointer; `run` checks the two atom ports and dereferences
the five float ports unchecked, so the latter are always present. -/
structure Ports where
  control_port : Option (List LV2_Atom_Event)
  notify_port : Option Nat
  volume_port : CFloat
  polyphony_port : CFloat
  oversampling_port : CFloat
  preload_port : CFloat
  freewheel_port : CFloat

/-- Execution context of a plugin call: the instance and the calls made so far. -/
structure Exec (σ : Type) where
  self : sfizz_plugin_t σ
  calls : List Call

/-- Whether a call is a `schedule_work` call. -/
def Call.is_schedule_work : Call → Bool
  | .schedule_work _ _ => true
  | _ => false

/-- The `schedule_work` calls of a trace, in order. -/
def scheduled (calls : List Call) : List Call := calls.filter Call.is_schedule_work

/-- Calling `self->worker->schedule_work`: the call is recorded and the host's
status for it is returned. -/
def schedule_work {σ : Type} (host : Scheduler) (x : Exec σ) (size : Nat) (data : LV2_Atom) :
    LV2_Worker_Status × Exec σ :=
  (host (scheduled x.calls).length size data,
   { x with calls := x.calls ++ [Call.schedule_work size data] })

/-- Recording a call that returns nothing to the plugin. -/
def Exec.call {σ : Type} (x : Exec σ) (c : Call) : Exec σ :=
  { x with calls := x.calls ++ [c] }

/-- Recording an engine call and applying its effect to `self->synth`. -/
def Exec.engine {σ : Type} (x : Exec σ) (c : Call) (f : σ → σ) : Exec σ :=
  { self := { x.self with synth := f x.self.synth }, calls := x.calls ++ [c] }

/-- Assignment to `self->changing_state`. -/
def Exec.set_changing_state {σ : Type} (x : Exec σ) (b : Bool) : Exec σ :=
  { x with self := { x.self with changing_state := b } }

/-! ## The render path -/

/-- The function `sfizz_lv2_send_file_path`: forges a patch Set of the
sfz-file property carrying `self->sfz_file_path` into the notify port. -/
def sfizz_lv2_send_file_path {σ : Type} (x : Exec σ) : Exec σ :=
  x.call (Call.forge_file_path x.self.sfz_file_path)

/-- The warning about an unsupported object, with the URI line when `unmap` exists. -/
def warn_with_uri {σ : Type} (x : Exec σ) (first : Call) (second : Call) : Exec σ :=
  let x := x.call first
  if x.self.unmap then x.call second else x

/-- The function `sfizz_lv2_handle_atom_object`.  On the sfz-file branch the
value atom (header and `size` body bytes) is copied into `atom_buffer`, a zero
byte is written after it and the type is overwritten; the request handed to
the scheduler is that buffer. -/
def sfizz_lv2_handle_atom_object {σ : Type} (host : Scheduler) (x : Exec σ)
    (obj : LV2_Atom_Object) : Exec σ :=
  match lv2_atom_object_get obj x.self.patch_property_uri with
  | none => x.call Call.lv2_log_error
  | some property =>
    if property.type ≠ x.self.atom_urid_uri then
      x.call Call.lv2_log_error
    else
      let key := read_uint32 property.body
      match lv2_atom_object_get obj x.self.patch_value_uri with
      | none => warn_with_uri x Call.lv2_log_error Call.lv2_log_warning
      | some atom =>
        if key = x.self.sfizz_sfz_file_uri then
          if x.self.changing_state then
            sfizz_lv2_send_file_path x
          else
            let original_atom_size := lv2_atom_total_size atom
            let null_terminated_atom_size := (original_atom_size + 1) % 4294967296
            let sfz_file_path : LV2_Atom :=
              { size := atom.size
                type := x.self.sfizz_sfz_file_uri
                body := atom.body.take atom.size ++ [0] }
            let x := x.set_changing_state true
            (schedule_work host x null_terminated_atom_size sfz_file_path).2
        else
          warn_with_uri x Call.lv2_log_warning Call.lv2_log_warning

/-- The helper `lv2_midi_is_voice_message` of `lv2/midi/midi.h`. -/
def lv2_midi_is_voice_message (msg0 : Nat) : Bool := decide (128 ≤ msg0) && decide (msg0 < 240)

/-- The helper `lv2_midi_is_system_message` of `lv2/midi/midi.h`. -/
def lv2_midi_is_system_message (msg0 : Nat) : Bool :=
  if msg0 = 244 ∨ msg0 = 245 ∨ msg0 = 247 ∨ msg0 = 249 ∨ msg0 = 253 then false
  else decide (msg0 / 16 % 16 = 15)

/-- The helper `lv2_midi_message_type` of `lv2/midi/midi.h`; 0 is
`LV2_MIDI_MSG_INVALID`. -/
def lv2_midi_message_type (msg0 : Nat) : Nat :=
  if lv2_midi_is_voice_message msg0 then msg0 / 16 % 16 * 16
  else if lv2_midi_is_system_message msg0 then msg0
  else 0

def LV2_MIDI_MSG_NOTE_OFF : Nat := 128
def LV2_MIDI_MSG_NOTE_ON : Nat := 144
def LV2_MIDI_MSG_CONTROLLER : Nat := 176
def LV2_MIDI_MSG_BENDER : Nat := 224

/-- The macro `PITCH_BUILD_AND_CENTER`: unsigned 32-bit shift and sum, cast to
`int`, minus 8192. -/
def PITCH_BUILD_AND_CENTER (first_byte last_byte : Nat) : Int :=
  wrap_int32 (wrap_int32 (((last_byte * 128) % 4294967296 + first_byte) % 4294967296 : Nat) - 8192)

/-- The function `sfizz_lv2_process_midi_event`; `msg` is the event body,
bytes past its end read as zero. -/
def sfizz_lv2_process_midi_event {σ : Type} (api : SfizzAPI σ) (x : Exec σ)
    (ev : LV2_Atom_Event) : Exec σ :=
  let msg (i : Nat) : Nat := ev.body.body.getD i 0 % 256
  let frames := wrap_int32 ev.frames
  let t := lv2_midi_message_type (msg 0)
  if t = LV2_MIDI_MSG_NOTE_ON then
    x.engine (Call.sfizz_send_note_on frames (msg 1) (msg 2))
      (fun s => api.sfizz_send_note_on s frames (msg 1) (msg 2))
  else if t = LV2_MIDI_MSG_NOTE_OFF then
    x.engine (Call.sfizz_send_note_off frames (msg 1) (msg 2))
      (fun s => api.sfizz_send_note_off s frames (msg 1) (msg 2))
  else if t = LV2_MIDI_MSG_CONTROLLER then
    x.engine (Call.sfizz_send_cc frames (msg 1) (msg 2))
      (fun s => api.sfizz_send_cc s frames (msg 1) (msg 2))
  else if t = LV2_MIDI_MSG_BENDER then
    x.engine (Call.sfizz_send_pitch_wheel frames (PITCH_BUILD_AND_CENTER (msg 1) (msg 2)))
      (fun s => api.sfizz_send_pitch_wheel s frames (PITCH_BUILD_AND_CENTER (msg 1) (msg 2)))
  else x

/-- The function `sfizz_lv2_check_oversampling`. -/
def sfizz_lv2_check_oversampling {σ : Type} (host : Scheduler) (ports : Ports) (x : Exec σ) :
    Exec σ :=
  let oversampling := cast_int ports.oversampling_port
  if oversampling ≠ x.self.oversampling ∧ x.self.changing_state = false then
    let atom := atom_int x.self.sfizz_oversampling_uri oversampling
    let r := schedule_work host x (lv2_atom_total_size atom) atom
    if r.1 = LV2_WORKER_SUCCESS then r.2.set_changing_state true else r.2
  else x

/-- The function `sfizz_lv2_check_preload_size`; the local is an
`unsigned int` initialised from `(int)*self->preload_port`. -/
def sfizz_lv2_check_preload_size {σ : Type} (host : Scheduler) (ports : Ports) (x : Exec σ) :
    Exec σ :=
  let preload_size := to_uint32 (cast_int ports.preload_port)
  if preload_size ≠ x.self.preload_size ∧ x.self.changing_state = false then
    let atom := atom_int x.self.sfizz_preload_size_uri (wrap_int32 preload_size)
    let r := schedule_work host x (lv2_atom_total_size atom) atom
    if r.1 = LV2_WORKER_SUCCESS then r.2.set_changing_state true else r.2
  else x

/-- The function `sfizz_lv2_check_num_voices`. -/
def sfizz_lv2_check_num_voices {σ : Type} (host : Scheduler) (ports : Ports) (x : Exec σ) :
    Exec σ :=
  let num_voices := cast_int ports.polyphony_port
  if num_voices ≠ x.self.num_voices ∧ x.self.changing_state = false then
    let num_voices_atom := atom_int x.self.sfizz_num_voices_uri num_voices
    let r := schedule_work host x (lv2_atom_total_size num_voices_atom) num_voices_atom
    if r.1 = LV2_WORKER_SUCCESS then r.2.set_changing_state true else r.2
  else x

/-- The function `sfizz_lv2_check_freewheeling`. -/
def sfizz_lv2_check_freewheeling {σ : Type} (api : SfizzAPI σ) (ports : Ports) (x : Exec σ) :
    Exec σ :=
  if ports.freewheel_port.pos then
    x.engine Call.sfizz_enable_freewheeling api.sfizz_enable_freewheeling
  else
    x.engine Call.sfizz_disable_freewheeling api.sfizz_disable_freewheeling

/-- One iteration of the `LV2_ATOM_SEQUENCE_FOREACH` loop of `run`. -/
def run_event {σ : Type} (api : SfizzAPI σ) (host : Scheduler) (x : Exec σ)
    (ev : LV2_Atom_Event) : Exec σ :=
  if ev.body.type = x.self.atom_object_uri then
    let obj := ev.obj
    if obj.otype = x.self.patch_set_uri then
      sfizz_lv2_handle_atom_object host x obj
    else if obj.otype = x.self.patch_get_uri then
      match lv2_atom_object_get obj x.self.patch_property_uri with
      | none => sfizz_lv2_send_file_path x
      | some property =>
        if read_uint32 property.body = x.self.sfizz_sfz_file_uri then sfizz_lv2_send_file_path x
        else x
    else
      warn_with_uri x Call.lv2_log_warning Call.lv2_log_warning
  else if ev.body.type = x.self.midi_event_uri then
    sfizz_lv2_process_midi_event api x ev
  else x

/-- The periodic block of `run` (the statements after the three parameter
checks and before the render call).  `NDEBUG` tells whether the macro is
defined, which removes the log-status request. -/
def run_periodic {σ : Type} (host : Scheduler) (NDEBUG : Bool) (sample_count : Nat)
    (x : Exec σ) : Exec σ :=
  let x : Exec σ :=
    { x with self := { x.self with
        sample_counter := wrap_int32 (x.self.sample_counter + wrap_int32 sample_count) } }
  if x.self.sample_counter > LOG_SAMPLE_COUNT then
    let x := x.set_changing_state true
    let atom : LV2_Atom := { size := 0, type := x.self.sfizz_check_modification_uri, body := [] }
    let r := schedule_work host x (lv2_atom_total_size atom) atom
    let x :=
      if ¬ (r.1 = LV2_WORKER_SUCCESS) then (r.2.set_changing_state false).call Call.lv2_log_error
      else r.2
    let x :=
      if NDEBUG then x
      else
        let atom := { atom with type := x.self.sfizz_log_status_uri }
        let r := schedule_work host x (lv2_atom_total_size atom) atom
        if ¬ (r.1 = LV2_WORKER_SUCCESS) then r.2.call Call.lv2_log_error else r.2
    { x with self := { x.self with
        sample_counter := wrap_int32 (x.self.sample_counter - LOG_SAMPLE_COUNT) } }
  else x

/-- The function `run`. -/
def run {σ : Type} (api : SfizzAPI σ) (host : Scheduler) (NDEBUG : Bool) (ports : Ports)
    (sample_count : Nat) (x : Exec σ) : Exec σ :=
  match ports.control_port, ports.notify_port with
  | some control_port, some notify_capacity =>
    let x := x.call (Call.forge_set_buffer notify_capacity)
    let x := x.call Call.forge_sequence_head
    let x := control_port.foldl (run_event api host) x
    let x := sfizz_lv2_check_freewheeling api ports x
    let x := x.engine (Call.sfizz_set_volume ports.volume_port)
      (fun s => api.sfizz_set_volume s ports.volume_port)
    let x := sfizz_lv2_check_preload_size host ports x
    let x := sfizz_lv2_check_oversampling host ports x
    let x := sfizz_lv2_check_num_voices host ports x
    let x := run_periodic host NDEBUG sample_count x
    x.engine (Call.sfizz_render_block 2 (wrap_int32 sample_count))
      (fun s => api.sfizz_render_block s 2 (wrap_int32 sample_count))
  | _, _ => x

/-! ## The worker side -/

/-- The function `sfizz_lv2_update_file_info`: copies the path into
`self->sfz_file_path` and logs the file statistics. -/
def sfizz_lv2_update_file_info {σ : Type} (api : SfizzAPI σ) (x : Exec σ)
    (file_path : List Nat) : Exec σ :=
  let x : Exec σ := { x with self := { x.self with sfz_file_path := file_path } }
  let x := x.call Call.lv2_log_note
  let x := x.call Call.sfizz_get_unknown_opcodes
  let x :=
    match api.sfizz_get_unknown_opcodes x.self.synth with
    | some _ => x.call Call.lv2_log_note
    | none => x
  ((x.call Call.lv2_log_note).call Call.lv2_log_note).call Call.lv2_log_note

/-- The call `sfizz_load_file(self->synth, path)`: recorded, the engine state
replaced, the result returned. -/
def load_file {σ : Type} (api : SfizzAPI σ) (x : Exec σ) (path : List Nat) : Bool × Exec σ :=
  let r := api.sfizz_load_file x.self.synth path
  (r.1, { self := { x.self with synth := r.2 }, calls := x.calls ++ [Call.sfizz_load_file path] })

/-- The sfz-file branch of `work`. -/
def work_sfz_file {σ : Type} (api : SfizzAPI σ) (x : Exec σ) (atom : LV2_Atom) : Exec σ :=
  let sfz_file_path := c_string atom.body
  let r := load_file api x sfz_file_path
  if r.1 then sfizz_lv2_update_file_info api r.2 sfz_file_path
  else r.2.call Call.lv2_log_error

/-- The num-voices branch of `work`. -/
def work_num_voices {σ : Type} (api : SfizzAPI σ) (x : Exec σ) (atom : LV2_Atom) : Exec σ :=
  let num_voices := read_int32 atom.body
  let x := x.engine (Call.sfizz_set_num_voices num_voices)
    (fun s => api.sfizz_set_num_voices s num_voices)
  let x := x.call Call.sfizz_get_num_voices
  if api.sfizz_get_num_voices x.self.synth = num_voices then
    ({ x with self := { x.self with num_voices := num_voices } } : Exec σ).call Call.lv2_log_note
  else x

/-- The preload-size branch of `work`. -/
def work_preload_size {σ : Type} (api : SfizzAPI σ) (x : Exec σ) (atom : LV2_Atom) : Exec σ :=
  let preload_size := read_uint32 atom.body
  let x := x.engine (Call.sfizz_set_preload_size preload_size)
    (fun s => api.sfizz_set_preload_size s preload_size)
  let x := x.call Call.sfizz_get_preload_size
  if api.sfizz_get_preload_size x.self.synth = preload_size then
    ({ x with self := { x.self with preload_size := preload_size } } : Exec σ).call
      Call.lv2_log_note
  else x

/-- The oversampling branch of `work`. -/
def work_oversampling {σ : Type} (api : SfizzAPI σ) (x : Exec σ) (atom : LV2_Atom) : Exec σ :=
  let oversampling := read_int32 atom.body
  let x := x.engine (Call.sfizz_set_oversampling_factor oversampling)
    (fun s => api.sfizz_set_oversampling_factor s oversampling)
  let x := x.call Call.sfizz_get_oversampling_factor
  if api.sfizz_get_oversampling_factor x.self.synth = oversampling then
    ({ x with self := { x.self with oversampling := oversampling } } : Exec σ).call
      Call.lv2_log_note
  else x

/-- The check-modification branch of `work`; `sfizz_should_reload_file` is
called only when `changing_state` is false. -/
def work_check_modification {σ : Type} (api : SfizzAPI σ) (x : Exec σ) : Exec σ :=
  if x.self.changing_state then x
  else
    let x := x.call Call.sfizz_should_reload_file
    if api.sfizz_should_reload_file x.self.synth then
      let x := x.call Call.lv2_log_note
      let r := load_file api x x.self.sfz_file_path
      if r.1 then sfizz_lv2_update_file_info api r.2 r.2.self.sfz_file_path
      else r.2.call Call.lv2_log_error
    else x

/-- The chain of type tests of `work` up to, but not including, the final
`respond` call; `none` is the unknown-atom branch. -/
def work_dispatch {σ : Type} (api : SfizzAPI σ) (x : Exec σ) (atom : LV2_Atom) :
    Option (Exec σ) :=
  if atom.type = x.self.sfizz_sfz_file_uri then some (work_sfz_file api x atom)
  else if atom.type = x.self.sfizz_num_voices_uri then some (work_num_voices api x atom)
  else if atom.type = x.self.sfizz_preload_size_uri then some (work_preload_size api x atom)
  else if atom.type = x.self.sfizz_oversampling_uri then some (work_oversampling api x atom)
  else if atom.type = x.self.sfizz_log_status_uri then some x
  else if atom.type = x.self.sfizz_check_modification_uri then
    some (work_check_modification api x)
  else none

/-- The function `work`; `data = none` is a null pointer. -/
def work {σ : Type} (api : SfizzAPI σ) (x : Exec σ) (size : Nat) (data : Option LV2_Atom) :
    LV2_Worker_Status × Exec σ :=
  match data with
  | none => (LV2_WORKER_ERR_UNKNOWN, x.call Call.lv2_log_error)
  | some atom =>
    match work_dispatch api x atom with
    | none => (LV2_WORKER_ERR_UNKNOWN, warn_with_uri x Call.lv2_log_error Call.lv2_log_error)
    | some x => (LV2_WORKER_SUCCESS, x.call (Call.respond size atom))

/-- The function `work_response`; `data = none` is a null pointer. -/
def work_response {σ : Type} (x : Exec σ) (_size : Nat) (data : Option LV2_Atom) :
    LV2_Worker_Status × Exec σ :=
  match data with
  | none => (LV2_WORKER_ERR_UNKNOWN, x)
  | some atom =>
    if atom.type = x.self.sfizz_sfz_file_uri then
      (LV2_WORKER_SUCCESS, x.set_changing_state false)
    else if atom.type = x.self.sfizz_num_voices_uri then
      (LV2_WORKER_SUCCESS, x.set_changing_state false)
    else if atom.type = x.self.sfizz_preload_size_uri then
      (LV2_WORKER_SUCCESS, x.set_changing_state false)
    else if atom.type = x.self.sfizz_oversampling_uri then
      (LV2_WORKER_SUCCESS, x.set_changing_state false)
    else if atom.type = x.self.sfizz_log_status_uri then
      (LV2_WORKER_SUCCESS, x)
    else if atom.type = x.self.sfizz_check_modification_uri then
      (LV2_WORKER_SUCCESS, x.set_changing_state false)
    else
      (LV2_WORKER_ERR_UNKNOWN, warn_with_uri x Call.lv2_log_error Call.lv2_log_error)

/-! ## State save and restore -/

/-- The host's `retrieve` callback: the stored bytes for a key, `none` for a
null result. -/
abbrev Retrieve := LV2_URID → Option (List Nat)

/-- The first block of `restore`: the saved file path, if any, is loaded. -/
def restore_file {σ : Type} (api : SfizzAPI σ) (retrieve : Retrieve) (x : Exec σ) : Exec σ :=
  match retrieve x.self.sfizz_sfz_file_uri with
  | some value =>
    let x := x.call Call.lv2_log_note
    let r := load_file api x (c_string value)
    if r.1 then sfizz_lv2_update_file_info api r.2 (c_string value) else r.2
  | none => x

/-- The second block of `restore`: the saved number of voices. -/
def restore_num_voices {σ : Type} (api : SfizzAPI σ) (retrieve : Retrieve) (x : Exec σ) :
    Exec σ :=
  match retrieve x.self.sfizz_num_voices_uri with
  | some value =>
    let num_voices := read_int32 value
    if num_voices > 0 ∧ num_voices ≤ MAX_VOICES ∧ num_voices ≠ x.self.num_voices then
      let x := x.call Call.lv2_log_note
      let x := x.engine (Call.sfizz_set_num_voices num_voices)
        (fun s => api.sfizz_set_num_voices s num_voices)
      { x with self := { x.self with num_voices := num_voices } }
    else x
  | none => x

/-- The third block of `restore`: the saved preload size. -/
def restore_preload_size {σ : Type} (api : SfizzAPI σ) (retrieve : Retrieve) (x : Exec σ) :
    Exec σ :=
  match retrieve x.self.sfizz_preload_size_uri with
  | some value =>
    let preload_size := read_uint32 value
    if preload_size ≠ x.self.preload_size then
      let x := x.call Call.lv2_log_note
      let x := x.engine (Call.sfizz_set_preload_size preload_size)
        (fun s => api.sfizz_set_preload_size s preload_size)
      { x with self := { x.self with preload_size := preload_size } }
    else x
  | none => x

/-- The fourth block of `restore`: the saved oversampling factor. -/
def restore_oversampling {σ : Type} (api : SfizzAPI σ) (retrieve : Retrieve) (x : Exec σ) :
    Exec σ :=
  match retrieve x.self.sfizz_oversampling_uri with
  | some value =>
    let oversampling := read_int32 value
    if oversampling ≠ x.self.oversampling then
      let x := x.call Call.lv2_log_note
      let x := x.engine (Call.sfizz_set_oversampling_factor oversampling)
        (fun s => api.sfizz_set_oversampling_factor s oversampling)
      { x with self := { x.self with oversampling := oversampling } }
    else x
  | none => x

/-- The function `restore` (it always returns `LV2_STATE_SUCCESS`): its four
blocks in sequence. -/
def restore {σ : Type} (api : SfizzAPI σ) (retrieve : Retrieve) (x : Exec σ) : Exec σ :=
  restore_oversampling api retrieve
    (restore_preload_size api retrieve
      (restore_num_voices api retrieve (restore_file api retrieve x)))

/-- The function `save` (it always returns `LV2_STATE_SUCCESS`). -/
def save {σ : Type} (x : Exec σ) : Exec σ :=
  let x := x.call (Call.store x.self.sfizz_sfz_file_uri (x.self.sfz_file_path ++ [0])
    (x.self.sfz_file_path.length + 1) x.self.atom_path_uri)
  let x := x.call (Call.store x.self.sfizz_num_voices_uri (le32 (to_uint32 x.self.num_voices)) 4
    x.self.atom_int_uri)
  let x := x.call (Call.store x.self.sfizz_preload_size_uri (le32 x.self.preload_size) 4
    x.self.atom_int_uri)
  x.call (Call.store x.self.sfizz_oversampling_uri (le32 (to_uint32 x.self.oversampling)) 4
    x.self.atom_int_uri)

/-! ## Instantiation -/

/-- The URIs that `sfizz_lv2_map_required_uris` maps, named by their macros. -/
inductive URI where
  | LV2_MIDI__MidiEvent
  | LV2_BUF_SIZE__maxBlockLength
  | LV2_BUF_SIZE__nominalBlockLength
  | LV2_PARAMETERS__sampleRate
  | LV2_ATOM__Float
  | LV2_ATOM__Int
  | LV2_ATOM__Path
  | LV2_ATOM__URID
  | LV2_ATOM__Object
  | LV2_PATCH__Set
  | LV2_PATCH__Get
  | LV2_PATCH__Put
  | LV2_PATCH__body
  | LV2_PATCH__property
  | LV2_PATCH__value
  | LV2_STATE__StateChanged
  | SFIZZ__sfzFile
  | SFIZZ__numVoices
  | SFIZZ__preloadSize
  | SFIZZ__oversampling
  | SFIZZ__logStatus
  | SFIZZ__checkModification
deriving DecidableEq, Repr

/-- An entry of the options array (entries before the null-valued terminator). -/
structure LV2_Options_Option where
  key : LV2_URID
  type : LV2_URID
  value : List Nat

/-- A host feature, identified by the macro of its URI, with the part of its
data that `instantiate` uses. -/
inductive LV2_Feature where
  | LV2_URID__map (map : URI → LV2_URID)
  | LV2_URID__unmap
  | LV2_BUF_SIZE__boundedBlockLength
  | LV2_BUF_SIZE__fixedBlockLength
  | LV2_OPTIONS__options (options : List LV2_Options_Option)
  | LV2_WORKER__schedule
  | LV2_LOG__log
  | other

/-- The locals and feature pointers that the feature loop of `instantiate` fills. -/
structure FeatureScan where
  map : Option (URI → LV2_URID)
  unmap : Bool
  worker : Bool
  options : Option (List LV2_Options_Option)
  supports_bounded_block_size : Bool
  supports_fixed_block_size : Bool

/-- One iteration of the feature loop of `instantiate`. -/
def scan_feature (a : FeatureScan) : LV2_Feature → FeatureScan
  | .LV2_URID__map m => { a with map := some m }
  | .LV2_URID__unmap => { a with unmap := true }
  | .LV2_BUF_SIZE__boundedBlockLength => { a with supports_bounded_block_size := true }
  | .LV2_BUF_SIZE__fixedBlockLength => { a with supports_fixed_block_size := true }
  | .LV2_OPTIONS__options o => { a with options := some o }
  | .LV2_WORKER__schedule => { a with worker := true }
  | .LV2_LOG__log => a
  | .other => a

/-- The state of the options loop of `instantiate`. -/
structure OptionScan where
  max_block_size : Int
  expect_nominal_block_length : Bool
  options_has_block_size : Bool

/-- One iteration of the options loop of `instantiate`. -/
def scan_option (sample_rate_uri max_block_length_uri nominal_block_length_uri atom_int_uri :
    LV2_URID) (a : OptionScan) (opt : LV2_Options_Option) : OptionScan :=
  if opt.key = sample_rate_uri then a
  else if a.expect_nominal_block_length = false ∧ opt.key = max_block_length_uri then
    if opt.type ≠ atom_int_uri then a
    else { a with max_block_size := read_int32 opt.value, options_has_block_size := true }
  else if opt.key = nominal_block_length_uri then
    if opt.type ≠ atom_int_uri then a
    else { max_block_size := read_int32 opt.value, expect_nominal_block_length := true,
           options_has_block_size := true }
  else a

/-- The function `instantiate` (log messages omitted); `none` is the null
handle.  The allocation is taken to succeed. -/
def instantiate {σ : Type} (api : SfizzAPI σ) (rate : CFloat) (features : List LV2_Feature) :
    Option (sfizz_plugin_t σ) :=
  let f := features.foldl scan_feature
    { map := none, unmap := false, worker := false, options := none,
      supports_bounded_block_size := false, supports_fixed_block_size := false }
  match f.map with
  | none => none
  | some map =>
    if f.worker = false then none
    else
      let o := (f.options.getD []).foldl
        (scan_option (map .LV2_PARAMETERS__sampleRate) (map .LV2_BUF_SIZE__maxBlockLength)
          (map .LV2_BUF_SIZE__nominalBlockLength) (map .LV2_ATOM__Int))
        { max_block_size := MAX_BLOCK_SIZE, expect_nominal_block_length := false,
          options_has_block_size := false }
      if f.supports_bounded_block_size = false ∧ f.supports_fixed_block_size = false
          ∧ o.options_has_block_size = false then none
      else
        some
          { unmap := f.unmap
            midi_event_uri := map .LV2_MIDI__MidiEvent
            options_interface_uri := 0
            max_block_length_uri := map .LV2_BUF_SIZE__maxBlockLength
            nominal_block_length_uri := map .LV2_BUF_SIZE__nominalBlockLength
            sample_rate_uri := map .LV2_PARAMETERS__sampleRate
            atom_object_uri := map .LV2_ATOM__Object
            atom_float_uri := map .LV2_ATOM__Float
            atom_int_uri := map .LV2_ATOM__Int
            atom_urid_uri := map .LV2_ATOM__URID
            atom_path_uri := map .LV2_ATOM__Path
            patch_set_uri := map .LV2_PATCH__Set
            patch_get_uri := map .LV2_PATCH__Get
            patch_put_uri := map .LV2_PATCH__Put
            patch_property_uri := map .LV2_PATCH__property
            patch_value_uri := map .LV2_PATCH__value
            patch_body_uri := map .LV2_PATCH__body
            state_changed_uri := map .LV2_STATE__StateChanged
            sfizz_sfz_file_uri := map .SFIZZ__sfzFile
            sfizz_num_voices_uri := map .SFIZZ__numVoices
            sfizz_preload_size_uri := map .SFIZZ__preloadSize
            sfizz_oversampling_uri := map .SFIZZ__oversampling
            sfizz_log_status_uri := map .SFIZZ__logStatus
            sfizz_check_modification_uri := map .SFIZZ__checkModification
            synth := api.sfizz_create_synth
            expect_nominal_block_length := o.expect_nominal_block_length
            sfz_file_path := []
            num_voices := DEFAULT_VOICES
            preload_size := DEFAULT_PRELOAD
            oversampling := DEFAULT_OVERSAMPLING
            changing_state := false
            max_block_size := o.max_block_size
            sample_counter := 0
            sample_rate := rate }

/-! ## The plugin together with the host's worker queues -/

/-- The requests of a trace that the scheduler accepted, in order: the
`k`-th `schedule_work` call is kept when the host answered it with
`LV2_WORKER_SUCCESS`. -/
def accepted (host : Scheduler) : Nat → List Call → List (Nat × LV2_Atom)
  | _, [] => []
  | k, Call.schedule_work size data :: rest =>
    if host k size data = LV2_WORKER_SUCCESS then (size, data) :: accepted host (k + 1) rest
    else accepted host (k + 1) rest
  | k, _ :: rest => accepted host k rest

/-- The responses of a trace, in order. -/
def responded : List Call → List (Nat × LV2_Atom)
  | [] => []
  | Call.respond size data :: rest => (size, data) :: responded rest
  | _ :: rest => responded rest

/-- A plugin instance with the two queues the host keeps for it: requests
accepted by `schedule_work` and not yet handed to `work`, and responses
passed to `respond` and not yet handed to `work_response`. -/
structure System (σ : Type) where
  self : sfizz_plugin_t σ
  requests : List (Nat × LV2_Atom)
  responses : List (Nat × LV2_Atom)

/-- Requests scheduled successfully whose response has not been applied. -/
def System.outstanding {σ : Type} (s : System σ) : Nat :=
  s.requests.length + s.responses.length

/-- The host calls `run`. -/
def System.run_step {σ : Type} (api : SfizzAPI σ) (host : Scheduler) (NDEBUG : Bool)
    (ports : Ports) (sample_count : Nat) (s : System σ) : System σ :=
  let x := run api host NDEBUG ports sample_count { self := s.self, calls := [] }
  { self := x.self, requests := s.requests ++ accepted host 0 x.calls, responses := s.responses }

/-- The host's worker thread calls `work` on the oldest pending request. -/
def System.work_step {σ : Type} (api : SfizzAPI σ) (s : System σ) : System σ :=
  match s.requests with
  | [] => s
  | (size, atom) :: rest =>
    let r := work api { self := s.self, calls := [] } size (some atom)
    { self := r.2.self, requests := rest, responses := s.responses ++ responded r.2.calls }

/-- The host delivers the oldest pending response to `work_response`. -/
def System.response_step {σ : Type} (s : System σ) : System σ :=
  match s.responses with
  | [] => s
  | (size, atom) :: rest =>
    { self := (work_response { self := s.self, calls := [] } size (some atom)).2.self,
      requests := s.requests, responses := rest }

/-- States reachable from a successful `instantiate` by `run` calls
interleaved with worker executions and response deliveries. -/
inductive Reachable {σ : Type} (api : SfizzAPI σ) (NDEBUG : Bool) : System σ → Prop where
  | init (rate : CFloat) (features : List LV2_Feature) (self : sfizz_plugin_t σ) :
      instantiate api rate features = some self →
      Reachable api NDEBUG { self := self, requests := [], responses := [] }
  | run (s : System σ) (host : Scheduler) (ports : Ports) (sample_count : Nat) :
      Reachable api NDEBUG s → Reachable api NDEBUG (s.run_step api host NDEBUG ports sample_count)
  | work (s : System σ) : Reachable api NDEBUG s → Reachable api NDEBUG (s.work_step api)
  | response (s : System σ) : Reachable api NDEBUG s → Reachable api NDEBUG s.response_step

/-! ## A sample engine and host, for evaluating the plugin on concrete inputs -/

/-- State of the sample engine. -/
structure SampleSynth where
  file : List Nat
  num_voices : Int
  preload_size : Nat
  oversampling : Int
  modified : Bool
deriving DecidableEq, Repr

/-- A sample engine: it loads every non-empty path, accepts voice counts in
`1..256` and oversampling factors 1, 2, 4, 8, and accepts every preload size. -/
def sampleAPI : SfizzAPI SampleSynth where
  sfizz_create_synth :=
    { file := [], num_voices := 64, preload_size := 8192, oversampling := 1, modified := false }
  sfizz_load_file s path :=
    if path = [] then (false, s) else (true, { s with file := path, modified := false })
  sfizz_set_num_voices s n := if 0 < n ∧ n ≤ 256 then { s with num_voices := n } else s
  sfizz_get_num_voices s := s.num_voices
  sfizz_set_preload_size s n := { s with preload_size := n }
  sfizz_get_preload_size s := s.preload_size
  sfizz_set_oversampling_factor s f :=
    if f = 1 ∨ f = 2 ∨ f = 4 ∨ f = 8 then { s with oversampling := f } else s
  sfizz_get_oversampling_factor s := s.oversampling
  sfizz_should_reload_file s := s.modified
  sfizz_send_note_on s _ _ _ := s
  sfizz_send_note_off s _ _ _ := s
  sfizz_send_cc s _ _ _ := s
  sfizz_send_pitch_wheel s _ _ := s
  sfizz_set_volume s _ := s
  sfizz_enable_freewheeling s := s
  sfizz_disable_freewheeling s := s
  sfizz_render_block s _ _ := s
  sfizz_get_unknown_opcodes _ := none

/-- A sample URID map: distinct non-zero identifiers. -/
def sampleMap : URI → LV2_URID
  | .LV2_MIDI__MidiEvent => 1
  | .LV2_BUF_SIZE__maxBlockLength => 2
  | .LV2_BUF_SIZE__nominalBlockLength => 3
  | .LV2_PARAMETERS__sampleRate => 4
  | .LV2_ATOM__Float => 5
  | .LV2_ATOM__Int => 6
  | .LV2_ATOM__Path => 7
  | .LV2_ATOM__URID => 8
  | .LV2_ATOM__Object => 9
  | .LV2_PATCH__Set => 10
  | .LV2_PATCH__Get => 11
  | .LV2_PATCH__Put => 12
  | .LV2_PATCH__body => 13
  | .LV2_PATCH__property => 14
  | .LV2_PATCH__value => 15
  | .LV2_STATE__StateChanged => 16
  | .SFIZZ__sfzFile => 17
  | .SFIZZ__numVoices => 18
  | .SFIZZ__preloadSize => 19
  | .SFIZZ__oversampling => 20
  | .SFIZZ__logStatus => 21
  | .SFIZZ__checkModification => 22

/-- The features a typical host passes. -/
def sampleFeatures : List LV2_Feature :=
  [.LV2_URID__map sampleMap, .LV2_URID__unmap, .LV2_WORKER__schedule,
   .LV2_BUF_SIZE__boundedBlockLength, .LV2_LOG__log]

/-- The sample rate 48000 Hz. -/
def sampleRate : CFloat := { mant := 48000, exp := 0 }

/-- The instance `instantiate` returns for the sample host. -/
def samplePlugin : sfizz_plugin_t SampleSynth :=
  (instantiate sampleAPI sampleRate sampleFeatures).get rfl

/-- A scheduler that accepts every request. -/
def acceptAll : Scheduler := fun _ _ _ => LV2_WORKER_SUCCESS

/-- A scheduler whose queue is full. -/
def rejectAll : Scheduler := fun _ _ _ => LV2_WORKER_ERR_NO_SPACE

/-- A float holding an integer value. -/
def CFloat.ofInt (n : Int) : CFloat := { mant := n, exp := 0 }

/-- Ports with an empty control sequence and the given parameter values. -/
def samplePorts (polyphony oversampling preload : Int) : Ports :=
  { control_port := some [], notify_port := some 1024, volume_port := CFloat.ofInt 0,
    polyphony_port := CFloat.ofInt polyphony, oversampling_port := CFloat.ofInt oversampling,
    preload_port := CFloat.ofInt preload, freewheel_port := CFloat.ofInt 0 }

/-- The initial system for the sample host. -/
def sampleSystem : System SampleSynth :=
  { self := samplePlugin, requests := [], responses := [] }

/-- Six `run` calls of 8192 samples in a release build with an accepting
scheduler: five with the ports equal to the stored configuration, then one in
which the polyphony port has moved from 64 to 32. -/
def sixthBlock : System SampleSynth :=
  let steady := System.run_step sampleAPI acceptAll true (samplePorts 64 1 8192) 8192
  System.run_step sampleAPI acceptAll true (samplePorts 32 1 8192) 8192
    (steady (steady (steady (steady (steady sampleSystem)))))

/-- A patch Set object whose property is the URID `file_uri` typed
`urid_type`, and whose value is the given atom. -/
def patch_set_object (set_uri property_key value_key urid_type file_uri : LV2_URID)
    (value : LV2_Atom) : LV2_Atom_Object :=
  { otype := set_uri
    props := [(property_key, { size := 4, type := urid_type, body := le32 file_uri }),
              (value_key, value)] }

/-- A patch Set of the sfz-file property for the sample host, with the path
`/a.sfz` as a zero-terminated Path atom. -/
def sampleFileSet : LV2_Atom_Object :=
  patch_set_object 10 14 15 8 17 { size := 7, type := 7, body := [47, 97, 46, 115, 102, 122, 0] }

/-- The six request and response URIDs are pairwise distinct (the host's
URID map is injective on them). -/
def distinct_kinds {σ : Type} (self : sfizz_plugin_t σ) : Prop :=
  [self.sfizz_sfz_file_uri, self.sfizz_num_voices_uri, self.sfizz_preload_size_uri,
   self.sfizz_oversampling_uri, self.sfizz_log_status_uri,
   self.sfizz_check_modification_uri].Nodup

instance {σ : Type} (self : sfizz_plugin_t σ) : Decidable (distinct_kinds self) := by
  unfold distinct_kinds
  infer_instance

/-- The request that the three parameter checks of `run` are expected to
submit: the one for the first parameter, in the order preload size,
oversampling, voice count, whose port value converted to the field's C type
differs from the stored field; `none` when all three agree. -/
def first_mismatch {σ : Type} (self : sfizz_plugin_t σ) (ports : Ports) : Option LV2_Atom :=
  if to_uint32 (cast_int ports.preload_port) ≠ self.preload_size then
    some (atom_int self.sfizz_preload_size_uri (cast_int ports.preload_port))
  else if cast_int ports.oversampling_port ≠ self.oversampling then
    some (atom_int self.sfizz_oversampling_uri (cast_int ports.oversampling_port))
  else if cast_int ports.polyphony_port ≠ self.num_voices then
    some (atom_int self.sfizz_num_voices_uri (cast_int ports.polyphony_port))
  else none

/-- An event is a patch Set object for the instance. -/
def is_patch_set {σ : Type} (self : sfizz_plugin_t σ) (ev : LV2_Atom_Event) : Prop :=
  ev.body.type = self.atom_object_uri ∧ ev.obj.otype = self.patch_set_uri

/-- The instance is the same up to the engine state, and no `schedule_work`
call was added to the trace. -/
def Quiet {σ : Type} (x y : Exec σ) : Prop :=
  y.self = { x.self with synth := y.self.synth } ∧ scheduled y.calls = scheduled x.calls

/-- The sample ports with the polyphony port at 32 and the notify port not
connected. -/
def unconnectedPorts : Ports :=
  { samplePorts 32 1 8192 with notify_port := none }

/-- The request that `sfizz_lv2_handle_atom_object` builds from `sampleFileSet`. -/
def sampleFileRequest : LV2_Atom :=
  { size := 7, type := 17, body := [47, 97, 46, 115, 102, 122, 0, 0] }

/-- A host state store holding only an empty file path. -/
def emptyPathStore : Retrieve := fun key => if key = 17 then some [0] else none

/-- A load-file request whose path is empty (the sample engine refuses it). -/
def emptyPathRequest : LV2_Atom := { size := 1, type := 17, body := [0, 0] }

/-- The instance is untouched and no `schedule_work` call was added to the trace. -/
def Silent {σ : Type} (x y : Exec σ) : Prop :=
  y.self = x.self ∧ scheduled y.calls = scheduled x.calls

/-- Calls of the render path other than engine events, the render call and
the two bare requests of the periodic block: log messages, forge writes,
volume and freewheeling updates, and requests that carry a body. -/
def Call.bookkeeping : Call → Bool
  | .schedule_work _ data => !data.body.isEmpty
  | .lv2_log_error => true
  | .lv2_log_warning => true
  | .lv2_log_note => true
  | .forge_set_buffer _ => true
  | .forge_sequence_head => true
  | .forge_file_path _ => true
  | .sfizz_set_volume _ => true
  | .sfizz_enable_freewheeling => true
  | .sfizz_disable_freewheeling => true
  | _ => false

/-- Between `x` and `y` only `changing_state` and the engine state may have
changed, and only bookkeeping calls were made. -/
def Book {σ : Type} (x y : Exec σ) : Prop :=
  y.self = { x.self with synth := y.self.synth, changing_state := y.self.changing_state }
    ∧ ∃ extra, y.calls = x.calls ++ extra ∧ ∀ c ∈ extra, c.bookkeeping = true

/-- The engine call that a MIDI message is forwarded as: the status nibble
selects note-on (9), note-off (8), controller (11) or pitch bend (14); the
arguments are the frame time converted to `int`, the two data bytes, and for
the bender the centred 14-bit value `msb * 128 + lsb - 8192`.  Other messages
are not forwarded. -/
def midi_call (ev : LV2_Atom_Event) : Option Call :=
  let msg (i : Nat) : Nat := ev.body.body.getD i 0 % 256
  let frames := wrap_int32 ev.frames
  if msg 0 / 16 = 9 then some (Call.sfizz_send_note_on frames (msg 1) (msg 2))
  else if msg 0 / 16 = 8 then some (Call.sfizz_send_note_off frames (msg 1) (msg 2))
  else if msg 0 / 16 = 11 then some (Call.sfizz_send_cc frames (msg 1) (msg 2))
  else if msg 0 / 16 = 14 then
    some (Call.sfizz_send_pitch_wheel frames ((msg 2 : Int) * 128 + (msg 1 : Int) - 8192))
  else none

/-- The engine event calls that one event of the control sequence gives
rise to: those of `midi_call` for an atom of the MIDI event type that is not
of the Object type, none otherwise. -/
def forwarded {σ : Type} (self : sfizz_plugin_t σ) (ev : LV2_Atom_Event) : List Call :=
  if ev.body.type = self.atom_object_uri then []
  else if ev.body.type = self.midi_event_uri then (midi_call ev).toList
  else []

/-- The engine event calls of a control sequence, in sequence order. -/
def forwarded_all {σ : Type} (self : sfizz_plugin_t σ) : List LV2_Atom_Event → List Call
  | [] => []
  | ev :: rest => forwarded self ev ++ forwarded_all self rest

/-- Between `x` and `y` only `changing_state` and the engine state may have
changed, and the calls selected by `p` that were added are those of `added`. -/
def Traces {σ : Type} (p : Call → Bool) (added : List Call) (x y : Exec σ) : Prop :=
  y.self = { x.self with synth := y.self.synth, changing_state := y.self.changing_state }
    ∧ y.calls.filter p = x.calls.filter p ++ added.filter p

/-- The statements of `run` between the null-port guard and the periodic
block: forge set-up, the event loop and the parameter checks. -/
def run_front {σ : Type} (api : SfizzAPI σ) (host : Scheduler) (ports : Ports)
    (control_port : List LV2_Atom_Event) (notify_capacity : Nat) (x : Exec σ) : Exec σ :=
  let x := x.call (Call.forge_set_buffer notify_capacity)
  let x := x.call Call.forge_sequence_head
  let x := control_port.foldl (run_event api host) x
  let x := sfizz_lv2_check_freewheeling api ports x
  let x := x.engine (Call.sfizz_set_volume ports.volume_port)
    (fun s => api.sfizz_set_volume s ports.volume_port)
  let x := sfizz_lv2_check_preload_size host ports x
  let x := sfizz_lv2_check_oversampling host ports x
  sfizz_lv2_check_num_voices host ports x

/-- The check-modification request built by the periodic block of `run`. -/
def check_request {σ : Type} (self : sfizz_plugin_t σ) : LV2_Atom :=
  { size := 0, type := self.sfizz_check_modification_uri, body := [] }

/-- The log-status request built by the periodic block of `run` in debug builds. -/
def status_request {σ : Type} (self : sfizz_plugin_t σ) : LV2_Atom :=
  { size := 0, type := self.sfizz_log_status_uri, body := [] }

/-- Calls that change the engine configuration. -/
def Call.is_mutator : Call → Bool
  | .sfizz_load_file _ => true
  | .sfizz_set_num_voices _ => true
  | .sfizz_set_preload_size _ => true
  | .sfizz_set_oversampling_factor _ => true
  | _ => false

/-- Engine event calls and the render call. -/
def Call.is_engine_event : Call → Bool
  | .sfizz_send_note_on _ _ _ => true
  | .sfizz_send_note_off _ _ _ => true
  | .sfizz_send_cc _ _ _ => true
  | .sfizz_send_pitch_wheel _ _ => true
  | .sfizz_render_block _ _ => true
  | _ => false

/-- The render call. -/
def Call.is_render_block : Call → Bool
  | .sfizz_render_block _ _ => true
  | _ => false

/-- The four engine event calls that MIDI messages are forwarded as. -/
def Call.is_midi_forward : Call → Bool
  | .sfizz_send_note_on _ _ _ => true
  | .sfizz_send_note_off _ _ _ => true
  | .sfizz_send_cc _ _ _ => true
  | .sfizz_send_pitch_wheel _ _ => true
  | _ => false

/-- The arguments of one `run` call: the scheduler's behaviour during the
call, the contents of the ports and the block size. -/
structure RunArgs where
  host : Scheduler
  ports : Ports
  sample_count : Nat

/-- A sequence of `run` calls on one instance, the trace accumulating. -/
def run_all {σ : Type} (api : SfizzAPI σ) (NDEBUG : Bool) : List RunArgs → Exec σ → Exec σ
  | [], x => x
  | a :: rest, x => run_all api NDEBUG rest (run api a.host NDEBUG a.ports a.sample_count x)

/-- The total number of samples rendered by a sequence of `run` calls. -/
def total_samples : List RunArgs → Nat
  | [] => 0
  | a :: rest => a.sample_count + total_samples rest

/-- Whether a call is the submission of the check-modification request. -/
def Call.is_check_submission (request : LV2_Atom) (c : Call) : Bool :=
  decide (c = Call.schedule_work 8 request)

/-- The number of check-modification submissions in a trace. -/
def check_submissions {σ : Type} (self : sfizz_plugin_t σ) (calls : List Call) : Nat :=
  (calls.filter (Call.is_check_submission (check_request self))).length

/-- A note-on message (note 60, velocity 100) at frame 5 for the sample host. -/
def noteOnEvent : LV2_Atom_Event :=
  { frames := 5, body := { size := 3, type := 1, body := [144, 60, 100] },
    obj := { otype := 0, props := [] } }

/-- The sample ports with one note-on in the control sequence. -/
def notePorts : Ports := { samplePorts 64 1 8192 with control_port := some [noteOnEvent] }

/-- The note ports with the notify port not connected. -/
def mutedPorts : Ports := { notePorts with notify_port := none }

/-- Seven blocks of 8192 samples for the sample host. -/
def sevenBlocks : List RunArgs :=
  List.replicate 7 { host := acceptAll, ports := samplePorts 64 1 8192, sample_count := 8192 }

/-- The sample instance after the instrument `/a.sfz` was loaded, the file
having been modified on disk since. -/
def loadedPlugin : sfizz_plugin_t SampleSynth :=
  { samplePlugin with
    sfz_file_path := [47, 97, 46, 115, 102, 122]
    synth := { file := [47, 97, 46, 115, 102, 122], num_voices := 64, preload_size := 8192,
               oversampling := 1, modified := true } }

/-- The check-modification request that `run` builds for the sample host. -/
def sampleCheckRequest : LV2_Atom := { size := 0, type := 22, body := [] }

/-- Six `run` calls of 8192 samples on the loaded instance, in a release
build with an accepting scheduler and the ports equal to the stored
configuration. -/
def reloadDue : System SampleSynth :=
  let steady := System.run_step sampleAPI acceptAll true (samplePorts 64 1 8192) 8192
  steady (steady (steady (steady (steady (steady
    { self := loadedPlugin, requests := [], responses := [] })))))

/-- The host's state store after a `save`: the value of the first `store`
call of the trace with the given key. -/
def stored : List Call → Retrieve
  | [] => fun _ => none
  | Call.store key value _ _ :: rest => fun k => if k = key then some value else stored rest k
  | _ :: rest => stored rest

/-- The three engine setters of the numeric parameters. -/
def Call.is_setter : Call → Bool
  | .sfizz_set_num_voices _ => true
  | .sfizz_set_preload_size _ => true
  | .sfizz_set_oversampling_factor _ => true
  | _ => false

/-- The byte indices of the stack buffer `atom_buffer` that the sfz-file
branch of `sfizz_lv2_handle_atom_object` writes: `memcpy` fills the first
`original_atom_size` bytes and the terminating zero goes to index
`original_atom_size`. -/
def atom_buffer_writes (atom : LV2_Atom) : List Nat :=
  List.range (lv2_atom_total_size atom) ++ [lv2_atom_total_size atom]

/-- A value atom of 1016 body bytes: its total size is the buffer size. -/
def longPathAtom : LV2_Atom := { size := 1016, type := 7, body := List.replicate 1016 97 }

/-- Modelled from the spec: the non-negative integer that a run of decimal
digits denotes (part of `Opcode` parsing and of `readNoteValue`). -/
def decimal_value (digits : List Char) : Nat :=
  digits.foldl (fun n c => 10 * n + (c.toNat - 48)) 0

/-- Modelled from the spec: the `Opcode` record of the sfizz library (section
3 of the specification; `sfizz/Opcode.h` is not among the sources): base name,
optional parameter index, value. -/
structure Opcode where
  opcode : String
  parameter : Option Nat
  value : String
deriving DecidableEq, Repr

/-- Modelled from the spec: the maximal trailing run of decimal digits of a key
(part of `Opcode` parsing). -/
def trailing_digits (key : List Char) : List Char :=
  (key.reverse.takeWhile Char.isDigit).reverse

/-- Modelled from the spec: the constructor `Opcode{rawKey, rawValue}`
(section 4.1, `parse`; the implementation is not among the sources): the key
is split into a prefix and its maximal trailing run of decimal digits, the run
denotes the parameter when it is not empty, and the value is kept verbatim. -/
def Opcode.parse (rawKey rawValue : String) : Opcode :=
  let digits := trailing_digits rawKey.data
  { opcode := String.mk (rawKey.data.take (rawKey.data.length - digits.length))
    parameter := if digits = [] then none else some (decimal_value digits)
    value := rawValue }

/-- Modelled from the spec: semitone of a note letter above C, for either case
of the letter (part of `readNoteValue`). -/
def note_semitone (letter : Char) : Option Int :=
  if letter = 'c' ∨ letter = 'C' then some 0
  else if letter = 'd' ∨ letter = 'D' then some 2
  else if letter = 'e' ∨ letter = 'E' then some 4
  else if letter = 'f' ∨ letter = 'F' then some 5
  else if letter = 'g' ∨ letter = 'G' then some 7
  else if letter = 'a' ∨ letter = 'A' then some 9
  else if letter = 'b' ∨ letter = 'B' then some 11
  else none

/-- Modelled from the spec: a signed octave number, an optional minus sign and
at least one decimal digit, nothing else (part of `readNoteValue`). -/
def read_octave : List Char → Option Int
  | '-' :: digits =>
    if digits ≠ [] ∧ digits.all Char.isDigit then some (-(decimal_value digits : Int)) else none
  | digits =>
    if digits ≠ [] ∧ digits.all Char.isDigit then some (decimal_value digits : Int) else none

/-- Modelled from the spec: the note number of a letter semitone, an accidental
and the rest of the text, which must be the octave; empty outside `0..127`
(part of `readNoteValue`). -/
def note_number (semitone accidental : Int) (rest : List Char) : Option Nat :=
  match read_octave rest with
  | none => none
  | some octave =>
    let value := 12 * (octave + 1) + semitone + accidental
    if 0 ≤ value ∧ value ≤ 127 then some value.toNat else none

/-- Modelled from the spec: the helper `readNoteValue` of the sfizz library
(section 4.1; the implementation is not among the sources, only its test): a
note letter in A-G of either case, an optional accidental (`#` raises by one
semitone, `b` lowers by one), and a signed octave number, with octave `-1`
mapping C to 0; empty on any other text and outside `0..127`. -/
def readNoteValue (text : String) : Option Nat :=
  match text.data with
  | [] => none
  | letter :: rest =>
    match note_semitone letter with
    | none => none
    | some semitone =>
      match rest with
      | '#' :: octave => note_number semitone 1 octave
      | 'b' :: octave => note_number semitone (-1) octave
      | octave => note_number semitone 0 octave

/-- The text of a signed octave number. -/
def octave_text (octave : Int) : List Char :=
  if octave < 0 then '-' :: Nat.toDigits 10 (-octave).toNat else Nat.toDigits 10 octave.toNat

/-- The text of a note name: letter, optional accidental, octave. -/
def note_text (letter : Char) (accidental : Option Char) (octave : Int) : String :=
  String.mk (letter :: (accidental.toList ++ octave_text octave))

/-- The semitone offset of an accidental. -/
def accidental_offset : Option Char → Int
  | some '#' => 1
  | some 'b' => -1
  | _ => 0

/-- The note letters, in both cases. -/
def note_letters : List Char :=
  ['c', 'd', 'e', 'f', 'g', 'a', 'b', 'C', 'D', 'E', 'F', 'G', 'A', 'B']

/-- The accidentals: none, sharp, flat. -/
def accidentals : List (Option Char) := [none, some '#', some 'b']

/-- The note number that the convention `C-1 = 0` gives to a note name:
`12 * (octave + 1) + semitone + accidental` when that lies in `0..127`. -/
def expected_note (letter : Char) (accidental : Option Char) (octave : Int) : Option Nat :=
  match note_semitone letter with
  | none => none
  | some semitone =>
    let value := 12 * (octave + 1) + semitone + accidental_offset accidental
    if 0 ≤ value ∧ value ≤ 127 then some value.toNat else none

/-- Modelled from the spec: the phases of the `ADSREnvelope` state machine
(section 3; `sfizz/ADSREnvelope.h` is not among the sources). -/
inductive EnvelopePhase where
  | Idle
  | Delay
  | Attack
  | Hold
  | Decay
  | Sustain
  | Release
  | Fadeout
deriving DecidableEq, Repr

/-- Modelled from the spec: the multiplicative steps of the decay and release
segments, which section 9 leaves to be derived from the expected test values:
`decay target length` is the per-sample factor of a decay toward the sustain
level, `release length` that of a release. -/
structure SegmentCurve where
  decay : ℚ → Nat → ℚ
  release : Nat → ℚ

/-- Modelled from the spec: the per-voice state of `ADSREnvelope` (section 3),
sample values being exact rationals in place of floats; `pendingRelease` is
the release scheduled by `startRelease`, in samples still to produce. -/
structure ADSREnvelope where
  phase : EnvelopePhase
  currentValue : ℚ
  stepsRemaining : Nat
  step : ℚ
  releaseStartValue : ℚ
  delaySamples : Nat
  attackSamples : Nat
  holdSamples : Nat
  decaySamples : Nat
  sustainLevel : ℚ
  releaseSamples : Nat
  pendingRelease : Option Nat

/-- Modelled from the spec: a default-constructed envelope is idle at value 0. -/
def ADSREnvelope.idle : ADSREnvelope :=
  { phase := EnvelopePhase.Idle, currentValue := 0, stepsRemaining := 0, step := 0,
    releaseStartValue := 0, delaySamples := 0, attackSamples := 0, holdSamples := 0,
    decaySamples := 0, sustainLevel := 0, releaseSamples := 0, pendingRelease := none }

/-- Modelled from the spec: `reset(attack, release, sustain, delay, decay,
hold, start)` reconfigures the timing, discards a pending release and restarts
at the delay phase (section 3). -/
def ADSREnvelope.reset (_e : ADSREnvelope) (attack release : Nat) (sustain : ℚ)
    (delay decay hold : Nat) (start : ℚ) : ADSREnvelope :=
  { phase := EnvelopePhase.Delay, currentValue := start, stepsRemaining := delay, step := 0,
    releaseStartValue := 0, delaySamples := delay, attackSamples := attack, holdSamples := hold,
    decaySamples := decay, sustainLevel := sustain, releaseSamples := release,
    pendingRelease := none }

/-- Modelled from the spec: entering the release phase from the current value
(part of `ADSREnvelope`). -/
def ADSREnvelope.begin_release (curve : SegmentCurve) (e : ADSREnvelope) : ADSREnvelope :=
  { e with phase := EnvelopePhase.Release, stepsRemaining := e.releaseSamples,
           releaseStartValue := e.currentValue, step := curve.release e.releaseSamples,
           pendingRelease := none }

/-- Modelled from the spec: `startRelease(timeFromNow)` begins the release at
once when `timeFromNow` is 0 and schedules it after that many further samples
otherwise (section 4.2). -/
def ADSREnvelope.startRelease (curve : SegmentCurve) (e : ADSREnvelope) (timeFromNow : Nat) :
    ADSREnvelope :=
  if timeFromNow = 0 then e.begin_release curve else { e with pendingRelease := some timeFromNow }

/-- Modelled from the spec: entering the sustain phase (part of `ADSREnvelope`). -/
def ADSREnvelope.to_sustain (e : ADSREnvelope) : ADSREnvelope :=
  { e with phase := EnvelopePhase.Sustain, currentValue := e.sustainLevel, stepsRemaining := 0 }

/-- Modelled from the spec: the phase after hold of `ADSREnvelope`, decay if it
has a length and the sustain level is below the peak, sustain otherwise. -/
def ADSREnvelope.after_hold (curve : SegmentCurve) (e : ADSREnvelope) : ADSREnvelope :=
  if 0 < e.decaySamples ∧ e.sustainLevel < 1 then
    { e with phase := EnvelopePhase.Decay, stepsRemaining := e.decaySamples,
             step := curve.decay e.sustainLevel e.decaySamples }
  else e.to_sustain

/-- Modelled from the spec: the phase after attack of `ADSREnvelope`; the value
is at the peak; hold if it has a length, else what follows hold. -/
def ADSREnvelope.after_attack (curve : SegmentCurve) (e : ADSREnvelope) : ADSREnvelope :=
  if 0 < e.holdSamples then
    { e with phase := EnvelopePhase.Hold, currentValue := 1, stepsRemaining := e.holdSamples }
  else ({ e with currentValue := 1 } : ADSREnvelope).after_hold curve

/-- Modelled from the spec: the phase after delay of `ADSREnvelope`, a linear
attack from the current value to 1 if it has a length, else what follows
attack. -/
def ADSREnvelope.after_delay (curve : SegmentCurve) (e : ADSREnvelope) : ADSREnvelope :=
  if 0 < e.attackSamples then
    { e with phase := EnvelopePhase.Attack, stepsRemaining := e.attackSamples,
             step := (1 - e.currentValue) / e.attackSamples }
  else e.after_attack curve

/-- Modelled from the spec: the transition check of `getNextValue`; a timed
phase whose samples are used up gives way to the next phase with a length. -/
def ADSREnvelope.settle (curve : SegmentCurve) (e : ADSREnvelope) : ADSREnvelope :=
  if e.stepsRemaining ≠ 0 then e
  else
    match e.phase with
    | EnvelopePhase.Delay => e.after_delay curve
    | EnvelopePhase.Attack => e.after_attack curve
    | EnvelopePhase.Hold => e.after_hold curve
    | EnvelopePhase.Decay => e.to_sustain
    | EnvelopePhase.Release =>
      { e with phase := EnvelopePhase.Fadeout, currentValue := 0 }
    | _ => e

/-- Modelled from the spec: the sample that the active phase of `ADSREnvelope`
produces, and the state after it. -/
def ADSREnvelope.emit (e : ADSREnvelope) : ℚ × ADSREnvelope :=
  match e.phase with
  | EnvelopePhase.Idle => (0, e)
  | EnvelopePhase.Fadeout => (0, e)
  | EnvelopePhase.Delay => (0, { e with stepsRemaining := e.stepsRemaining - 1 })
  | EnvelopePhase.Attack =>
    (e.currentValue + e.step,
     { e with currentValue := e.currentValue + e.step, stepsRemaining := e.stepsRemaining - 1 })
  | EnvelopePhase.Hold => (e.currentValue, { e with stepsRemaining := e.stepsRemaining - 1 })
  | EnvelopePhase.Decay =>
    (e.currentValue * e.step,
     { e with currentValue := e.currentValue * e.step, stepsRemaining := e.stepsRemaining - 1 })
  | EnvelopePhase.Sustain => (e.currentValue, e)
  | EnvelopePhase.Release =>
    (e.currentValue * e.step,
     { e with currentValue := e.currentValue * e.step, stepsRemaining := e.stepsRemaining - 1 })

/-- Modelled from the spec: the scheduled release of `ADSREnvelope`; it begins
when no further sample is to be produced before it, and comes one sample
closer otherwise. -/
def ADSREnvelope.tick (curve : SegmentCurve) (e : ADSREnvelope) : ADSREnvelope :=
  match e.pendingRelease with
  | none => e
  | some 0 => e.begin_release curve
  | some (n + 1) => { e with pendingRelease := some n }

/-- Modelled from the spec: `getNextValue()` advances one sample: scheduled
release, transition check, then the rule of the active phase (section 4.2). -/
def ADSREnvelope.getNextValue (curve : SegmentCurve) (e : ADSREnvelope) : ℚ × ADSREnvelope :=
  ((e.tick curve).settle curve).emit

/-- Modelled from the spec: `getBlock(buffer)` fills the buffer, slot by slot
from the first, by single-sample advances (section 4.2); the result is the
filled buffer and the state after it. -/
def ADSREnvelope.getBlock (curve : SegmentCurve) (e : ADSREnvelope) :
    List ℚ → List ℚ × ADSREnvelope
  | [] => ([], e)
  | _ :: rest =>
    let r := e.getNextValue curve
    let b := ADSREnvelope.getBlock curve r.2 rest
    (r.1 :: b.1, b.2)

/-- The state after `n` successive `getNextValue` calls. -/
def ADSREnvelope.advance (curve : SegmentCurve) (e : ADSREnvelope) : Nat → ADSREnvelope
  | 0 => e
  | n + 1 => ADSREnvelope.advance curve (e.getNextValue curve).2 n

/-- The value returned by the `k`-th of successive `getNextValue` calls,
`k` counted from 1 (0 gives 0). -/
def ADSREnvelope.nth_value (curve : SegmentCurve) (e : ADSREnvelope) (k : Nat) : ℚ :=
  match k with
  | 0 => 0
  | k + 1 => ((ADSREnvelope.advance curve e k).getNextValue curve).1

/-- A curve with made-up factors, for evaluating the model. -/
def sampleCurve : SegmentCurve := { decay := fun _ _ => 1 / 2, release := fun _ => 1 / 10 }

/-- The state during a linear attack of `n` samples from 0 after `j` of them:
the value is `j / n`. -/
def attack_state (n j : Nat) : ADSREnvelope :=
  { phase := EnvelopePhase.Attack, currentValue := (j : ℚ) / n, stepsRemaining := n - j,
    step := (1 - 0) / (n : ℚ), releaseStartValue := 0, delaySamples := 0, attackSamples := n,
    holdSamples := 0, decaySamples := 0, sustainLevel := 1, releaseSamples := 0,
    pendingRelease := none }

/-- The state once the attack of `n` samples has given way to sustain at 1. -/
def sustain_state (n : Nat) : ADSREnvelope :=
  { phase := EnvelopePhase.Sustain, currentValue := 1, stepsRemaining := 0,
    step := (1 - 0) / (n : ℚ), releaseStartValue := 0, delaySamples := 0, attackSamples := n,
    holdSamples := 0, decaySamples := 0, sustainLevel := 1, releaseSamples := 0,
    pendingRelease := none }

/-! ## Theorems -/

theorem scheduled_append (a b : List Call) : scheduled (a ++ b) = scheduled a ++ scheduled b := by
  simp [scheduled]

theorem wrap_int32_idem (t : Int) : wrap_int32 (wrap_int32 t) = wrap_int32 t := by
  unfold wrap_int32; omega

theorem wrap_to_uint32 (t : Int) : wrap_int32 (to_uint32 t) = wrap_int32 t := by
  unfold wrap_int32 to_uint32; omega

theorem to_uint32_wrap (t : Int) : to_uint32 (wrap_int32 t) = to_uint32 t := by
  unfold wrap_int32 to_uint32; omega

theorem read_uint32_le32 (n : Nat) : read_uint32 (le32 n) = n % 4294967296 := by
  simp [read_uint32, le32]; omega

theorem Quiet.quiet_refl {σ : Type} (x : Exec σ) : Quiet x x := ⟨rfl, rfl⟩

theorem Quiet.quiet_trans {σ : Type} {x y z : Exec σ} (h1 : Quiet x y) (h2 : Quiet y z) : Quiet x z := by
  obtain ⟨a1, b1⟩ := h1
  obtain ⟨a2, b2⟩ := h2
  refine ⟨?_, b2.trans b1⟩
  rw [a2, a1]

theorem Quiet.quiet_call {σ : Type} (x : Exec σ) (c : Call) (hc : c.is_schedule_work = false) :
    Quiet x (x.call c) := by
  refine ⟨rfl, ?_⟩
  simp [Exec.call, scheduled, hc]

theorem Quiet.quiet_engine {σ : Type} (x : Exec σ) (c : Call) (f : σ → σ)
    (hc : c.is_schedule_work = false) : Quiet x (x.engine c f) := by
  refine ⟨rfl, ?_⟩
  simp [Exec.engine, scheduled, hc]

theorem Quiet.quiet_warn {σ : Type} (x : Exec σ) (a b : Call) (ha : a.is_schedule_work = false)
    (hb : b.is_schedule_work = false) : Quiet x (warn_with_uri x a b) := by
  unfold warn_with_uri
  by_cases hu : x.self.unmap = true
  · simpa [Exec.call, hu] using (Quiet.quiet_call x a ha).quiet_trans (Quiet.quiet_call _ b hb)
  · simpa [Exec.call, hu] using Quiet.quiet_call x a ha

theorem Quiet.quiet_midi {σ : Type} (api : SfizzAPI σ) (x : Exec σ) (ev : LV2_Atom_Event) :
    Quiet x (sfizz_lv2_process_midi_event api x ev) := by
  unfold sfizz_lv2_process_midi_event
  simp only
  split_ifs
  · exact Quiet.quiet_engine _ _ _ rfl
  · exact Quiet.quiet_engine _ _ _ rfl
  · exact Quiet.quiet_engine _ _ _ rfl
  · exact Quiet.quiet_engine _ _ _ rfl
  · exact Quiet.quiet_refl x

theorem Quiet.quiet_run_event {σ : Type} (api : SfizzAPI σ) (host : Scheduler) (x : Exec σ)
    (ev : LV2_Atom_Event) (h : ¬ is_patch_set x.self ev) : Quiet x (run_event api host x ev) := by
  unfold Sfizz.run_event
  unfold is_patch_set at h
  by_cases h1 : ev.body.type = x.self.atom_object_uri
  · have h2 : ¬ ev.obj.otype = x.self.patch_set_uri := fun h2 => h ⟨h1, h2⟩
    simp only [h1, h2, if_true, if_false]
    split_ifs
    · cases hg : lv2_atom_object_get ev.obj x.self.patch_property_uri with
      | none => exact Quiet.quiet_call _ _ rfl
      | some property =>
        simp only
        split_ifs
        · exact Quiet.quiet_call _ _ rfl
        · exact Quiet.quiet_refl x
    · exact Quiet.quiet_warn _ _ _ rfl rfl
  · simp only [h1, if_false]
    split_ifs
    · exact Quiet.quiet_midi api x ev
    · exact Quiet.quiet_refl x

theorem Quiet.quiet_events {σ : Type} (api : SfizzAPI σ) (host : Scheduler) (evs : List LV2_Atom_Event)
    (x : Exec σ) (h : ∀ ev ∈ evs, ¬ is_patch_set x.self ev) :
    Quiet x (evs.foldl (Sfizz.run_event api host) x) := by
  induction evs generalizing x with
  | nil => exact Quiet.quiet_refl x
  | cons ev rest ih =>
    simp only [List.foldl_cons]
    have h1 := Quiet.quiet_run_event api host x ev (h ev (List.mem_cons_self _ _))
    refine h1.quiet_trans (ih _ ?_)
    intro e he
    have := h e (List.mem_cons_of_mem _ he)
    unfold is_patch_set at this ⊢
    rw [h1.1]
    exact this

theorem read_int32_atom_int (t : LV2_URID) (v : Int) :
    read_int32 (atom_int t v).body = wrap_int32 v := by
  unfold read_int32 atom_int
  simp only [read_uint32_le32]
  unfold wrap_int32 to_uint32
  omega

theorem cast_int_wrap (f : CFloat) : wrap_int32 (cast_int f) = cast_int f := by
  unfold cast_int; exact wrap_int32_idem _

theorem checks_submit {σ : Type} (host : Scheduler) (ports : Ports) (z : Exec σ) (a : LV2_Atom)
    (hz : z.self.changing_state = false)
    (hok : ∀ k size data, host k size data = LV2_WORKER_SUCCESS)
    (hm : first_mismatch z.self ports = some a) :
    sfizz_lv2_check_num_voices host ports
        (sfizz_lv2_check_oversampling host ports (sfizz_lv2_check_preload_size host ports z))
      = { self := { z.self with changing_state := true },
          calls := z.calls ++ [Call.schedule_work 12 a] } := by
  unfold first_mismatch at hm
  by_cases h1 : to_uint32 (cast_int ports.preload_port) = z.self.preload_size
  · by_cases h2 : cast_int ports.oversampling_port = z.self.oversampling
    · by_cases h3 : cast_int ports.polyphony_port = z.self.num_voices
      · simp [h1, h2, h3] at hm
      · simp only [h1, h2, h3, ne_eq, not_true_eq_false, if_false, not_false_eq_true, if_true,
          Option.some.injEq] at hm
        subst hm
        simp [sfizz_lv2_check_num_voices, sfizz_lv2_check_oversampling,
          sfizz_lv2_check_preload_size, h1, h2, h3, hz, schedule_work, hok,
          Exec.set_changing_state, lv2_atom_total_size, atom_int, sizeof_LV2_Atom]
    · simp only [h1, h2, ne_eq, not_true_eq_false, if_false, not_false_eq_true, if_true,
        Option.some.injEq] at hm
      subst hm
      simp [sfizz_lv2_check_num_voices, sfizz_lv2_check_oversampling,
        sfizz_lv2_check_preload_size, h1, h2, hz, schedule_work, hok,
        Exec.set_changing_state, lv2_atom_total_size, atom_int, sizeof_LV2_Atom]
  · simp only [h1, ne_eq, not_false_eq_true, if_true, Option.some.injEq] at hm
    subst hm
    simp [sfizz_lv2_check_num_voices, sfizz_lv2_check_oversampling,
      sfizz_lv2_check_preload_size, h1, hz, schedule_work, hok,
      Exec.set_changing_state, lv2_atom_total_size, atom_int, sizeof_LV2_Atom,
      wrap_to_uint32, cast_int_wrap]


theorem first_mismatch_payload {σ : Type} (self : sfizz_plugin_t σ) (ports : Ports) (a : LV2_Atom)
    (hm : first_mismatch self ports = some a) :
    (a.type = self.sfizz_preload_size_uri ∧ read_int32 a.body = cast_int ports.preload_port) ∨
    (a.type = self.sfizz_oversampling_uri ∧ read_int32 a.body = cast_int ports.oversampling_port) ∨
    (a.type = self.sfizz_num_voices_uri ∧ read_int32 a.body = cast_int ports.polyphony_port) := by
  unfold first_mismatch at hm
  split_ifs at hm <;> simp only [Option.some.injEq] at hm <;> subst hm
  · left; exact ⟨rfl, by rw [read_int32_atom_int, cast_int_wrap]⟩
  · right; left; exact ⟨rfl, by rw [read_int32_atom_int, cast_int_wrap]⟩
  · right; right; exact ⟨rfl, by rw [read_int32_atom_int, cast_int_wrap]⟩

theorem run_periodic_skip {σ : Type} (host : Scheduler) (NDEBUG : Bool) (sample_count : Nat)
    (x : Exec σ) (hrange : -2147483648 ≤ x.self.sample_counter)
    (hcount : x.self.sample_counter + sample_count ≤ LOG_SAMPLE_COUNT) :
    run_periodic host NDEBUG sample_count x
      = { x with self := { x.self with
            sample_counter := x.self.sample_counter + sample_count } } := by
  have hw : wrap_int32 (x.self.sample_counter + wrap_int32 sample_count)
      = x.self.sample_counter + sample_count := by
    unfold LOG_SAMPLE_COUNT at hcount
    unfold wrap_int32
    omega
  unfold run_periodic
  simp only [hw]
  rw [if_neg (by omega)]

/-- C1 (failing input): six `run` calls of 8192 samples after `instantiate`, in
a release build with a scheduler that accepts every request; in the sixth the
polyphony port has moved from 64 to 32.  The voice-count check submits its
request and sets the guard, and the periodic block of the same call, which
does not test `changing_state`, submits the check-modification request as
well: the state is reachable and two accepted requests are outstanding. -/
theorem periodic_check_ignores_guard :
    Reachable sampleAPI true sixthBlock
      ∧ sixthBlock.requests
          = [(12, atom_int 18 32), (8, { size := 0, type := 22, body := [] })]
      ∧ sixthBlock.responses = []
      ∧ sixthBlock.outstanding = 2 := by
  refine ⟨?_, by decide, by decide, by decide⟩
  unfold sixthBlock
  exact Reachable.run _ _ _ _ (Reachable.run _ _ _ _ (Reachable.run _ _ _ _
    (Reachable.run _ _ _ _ (Reachable.run _ _ _ _ (Reachable.run _ _ _ _
      (Reachable.init sampleRate sampleFeatures samplePlugin (Option.some_get _).symm))))))

/-- C2 (amended): for every `run` call with both atom ports connected that
starts with `changing_state == false`, has no patch Set object in the control
port, does not reach the periodic check (`sample_counter + sample_count <=
48000`) and in which `schedule_work` always succeeds: if one of the preload,
oversampling and polyphony port values, cast to the field's type, differs from
the stored field, then exactly one request is scheduled, it is the one for the
first mismatching parameter in the order preload size, oversampling, voice
count, its payload reads back as the port value, and `changing_state` is true
when `run` returns. -/
theorem run_submits_first_mismatch {σ : Type} (api : SfizzAPI σ) (host : Scheduler)
    (NDEBUG : Bool) (ports : Ports) (evs : List LV2_Atom_Event) (capacity sample_count : Nat)
    (self : sfizz_plugin_t σ) (a : LV2_Atom)
    (hcontrol : ports.control_port = some evs) (hnotify : ports.notify_port = some capacity)
    (hstate : self.changing_state = false)
    (hpatch : ∀ ev ∈ evs, ¬ is_patch_set self ev)
    (hrange : -2147483648 ≤ self.sample_counter)
    (hcount : self.sample_counter + sample_count ≤ LOG_SAMPLE_COUNT)
    (hok : ∀ k size data, host k size data = LV2_WORKER_SUCCESS)
    (hmismatch : first_mismatch self ports = some a) :
    scheduled (run api host NDEBUG ports sample_count { self := self, calls := [] }).calls
        = [Call.schedule_work (lv2_atom_total_size a) a]
      ∧ (run api host NDEBUG ports sample_count { self := self, calls := [] }).self.changing_state
        = true
      ∧ ((a.type = self.sfizz_preload_size_uri
            ∧ read_int32 a.body = cast_int ports.preload_port)
          ∨ (a.type = self.sfizz_oversampling_uri
            ∧ read_int32 a.body = cast_int ports.oversampling_port)
          ∨ (a.type = self.sfizz_num_voices_uri
            ∧ read_int32 a.body = cast_int ports.polyphony_port)) := by
  have hsize : lv2_atom_total_size a = 12 := by
    unfold first_mismatch at hmismatch
    split_ifs at hmismatch <;> simp only [Option.some.injEq] at hmismatch <;> subst hmismatch <;> rfl
  refine ⟨?_, ?_, first_mismatch_payload self ports a hmismatch⟩
  all_goals
    unfold run
    simp only [hcontrol, hnotify]
    generalize hx0 : ((({ self := self, calls := [] } : Exec σ).call
      (Call.forge_set_buffer capacity)).call Call.forge_sequence_head) = x0
    have q0 : Quiet ({ self := self, calls := [] } : Exec σ) x0 := by
      rw [← hx0]
      exact (Quiet.quiet_call _ (Call.forge_set_buffer capacity) rfl).quiet_trans
        (Quiet.quiet_call _ Call.forge_sequence_head rfl)
    have hself0 : x0.self = self := by rw [← hx0]; rfl
    have q1 : Quiet x0 (evs.foldl (Sfizz.run_event api host) x0) :=
      Quiet.quiet_events api host evs x0 (by rw [hself0]; exact hpatch)
    generalize hz : (sfizz_lv2_check_freewheeling api ports
      (evs.foldl (Sfizz.run_event api host) x0)).engine (Call.sfizz_set_volume ports.volume_port)
        (fun s => api.sfizz_set_volume s ports.volume_port) = z
    have q2 : Quiet ({ self := self, calls := [] } : Exec σ) z := by
      rw [← hz]
      refine (q0.quiet_trans q1).quiet_trans (Quiet.quiet_trans ?_ (Quiet.quiet_engine _ _ _ rfl))
      unfold sfizz_lv2_check_freewheeling
      split_ifs
      · exact Quiet.quiet_engine _ _ _ rfl
      · exact Quiet.quiet_engine _ _ _ rfl
    obtain ⟨qs, qc⟩ := q2
    simp only at qs
    have hzs : z.self.changing_state = false := by rw [qs]; exact hstate
    have hzm : first_mismatch z.self ports = some a := by
      rw [qs]; exact hmismatch
    rw [checks_submit host ports z a hzs hok hzm]
    rw [run_periodic_skip _ _ _ _ (by rw [qs]; exact hrange) (by rw [qs]; exact hcount)]
  · simp only [Exec.engine, scheduled_append, qc, hsize]
    simp [scheduled, Call.is_schedule_work]
  · simp [Exec.engine]

/-- C2 (witness): the sample host with the polyphony port moved to 32. -/
theorem run_submits_first_mismatch_witness :
    scheduled (run sampleAPI acceptAll true (samplePorts 32 1 8192) 256
        { self := samplePlugin, calls := [] }).calls
        = [Call.schedule_work (lv2_atom_total_size (atom_int 18 32)) (atom_int 18 32)]
      ∧ (run sampleAPI acceptAll true (samplePorts 32 1 8192) 256
          { self := samplePlugin, calls := [] }).self.changing_state = true :=
  have h := run_submits_first_mismatch sampleAPI acceptAll true (samplePorts 32 1 8192) [] 1024
    256 samplePlugin (atom_int 18 32) rfl rfl rfl (by simp) (by decide) (by decide)
    (fun _ _ _ => rfl) (by decide)
  ⟨h.1, h.2.1⟩

/-- C2 (counterexample): with the notify port not connected, `run` returns at
its null-port guard: the state starts with `changing_state == false`, the
control sequence is empty, the periodic check is not reached, the scheduler
accepts everything and the polyphony port (32) differs from the stored voice
count (64), yet no request is scheduled and `changing_state` stays false. -/
theorem run_unconnected_submits_nothing :
    samplePlugin.changing_state = false
      ∧ unconnectedPorts.control_port = some []
      ∧ samplePlugin.sample_counter + 256 ≤ LOG_SAMPLE_COUNT
      ∧ first_mismatch samplePlugin unconnectedPorts = some (atom_int 18 32)
      ∧ scheduled (run sampleAPI acceptAll true unconnectedPorts 256
          { self := samplePlugin, calls := [] }).calls = []
      ∧ (run sampleAPI acceptAll true unconnectedPorts 256
          { self := samplePlugin, calls := [] }).self.changing_state = false := by
  decide

/-- C3: when `changing_state` is true on entry, the three check routines
return without any call and without touching the instance, and
`sfizz_lv2_handle_atom_object`, for every object and so for every patch Set of
the sfz-file property whatever its value, adds no `schedule_work` call and
leaves the whole instance, in particular `changing_state`, `sfz_file_path`,
`num_voices`, `preload_size` and `oversampling`, unchanged. -/
theorem in_flight_defers {σ : Type} (host : Scheduler) (ports : Ports) (x : Exec σ)
    (hstate : x.self.changing_state = true) :
    sfizz_lv2_check_preload_size host ports x = x
      ∧ sfizz_lv2_check_oversampling host ports x = x
      ∧ sfizz_lv2_check_num_voices host ports x = x
      ∧ ∀ obj : LV2_Atom_Object,
          (sfizz_lv2_handle_atom_object host x obj).self = x.self
            ∧ scheduled (sfizz_lv2_handle_atom_object host x obj).calls = scheduled x.calls := by
  refine ⟨?_, ?_, ?_, ?_⟩
  · simp [sfizz_lv2_check_preload_size, hstate]
  · simp [sfizz_lv2_check_oversampling, hstate]
  · simp [sfizz_lv2_check_num_voices, hstate]
  · intro obj
    have hcall : ∀ c : Call, c.is_schedule_work = false → Silent x (x.call c) :=
      fun c hc => ⟨rfl, (Quiet.quiet_call x c hc).2⟩
    have hwarn : ∀ c d : Call, c.is_schedule_work = false → d.is_schedule_work = false →
        Silent x (warn_with_uri x c d) := by
      intro c d hc hd
      refine ⟨?_, (Quiet.quiet_warn x c d hc hd).2⟩
      unfold warn_with_uri
      simp only [Exec.call]
      split_ifs <;> rfl
    show Silent x (sfizz_lv2_handle_atom_object host x obj)
    unfold sfizz_lv2_handle_atom_object
    cases lv2_atom_object_get obj x.self.patch_property_uri with
    | none => exact hcall _ rfl
    | some property =>
      simp only
      by_cases h1 : property.type = x.self.atom_urid_uri
      · simp only [h1, ne_eq, not_true_eq_false, if_false]
        cases lv2_atom_object_get obj x.self.patch_value_uri with
        | none => exact hwarn _ _ rfl rfl
        | some atom =>
          simp only [hstate, if_true]
          by_cases h2 : read_uint32 property.body = x.self.sfizz_sfz_file_uri
          · simp only [h2, if_true]
            exact hcall _ rfl
          · simp only [h2, if_false]
            exact hwarn _ _ rfl rfl
      · simp only [ne_eq, h1, not_false_eq_true, if_true]
        exact hcall _ rfl

/-- C3 (witness): the sample instance with a request in flight. -/
theorem in_flight_defers_witness :
    sfizz_lv2_check_num_voices acceptAll (samplePorts 32 1 8192)
        { self := { samplePlugin with changing_state := true }, calls := [] }
      = { self := { samplePlugin with changing_state := true }, calls := [] }
    ∧ scheduled (sfizz_lv2_handle_atom_object acceptAll
        { self := { samplePlugin with changing_state := true }, calls := [] } sampleFileSet).calls
      = [] :=
  have h := in_flight_defers acceptAll (samplePorts 32 1 8192)
    { self := { samplePlugin with changing_state := true }, calls := [] } rfl
  ⟨h.2.2.1, (h.2.2.2 sampleFileSet).2⟩

/-- C4 (failing input): a patch Set of the sfz-file property handled while
`changing_state` is false, with a scheduler whose queue is full: the request
is submitted once, `schedule_work` answers `LV2_WORKER_ERR_NO_SPACE`, and
`changing_state` is true afterwards, whereas the same rejection leaves it
false in the voice-count check and in the periodic check of `run`. -/
theorem file_load_guard_not_rolled_back :
    samplePlugin.changing_state = false
      ∧ (sfizz_lv2_handle_atom_object rejectAll { self := samplePlugin, calls := [] }
          sampleFileSet).calls = [Call.schedule_work 16 sampleFileRequest]
      ∧ rejectAll 0 16 sampleFileRequest = LV2_WORKER_ERR_NO_SPACE
      ∧ (sfizz_lv2_handle_atom_object rejectAll { self := samplePlugin, calls := [] }
          sampleFileSet).self.changing_state = true
      ∧ (sfizz_lv2_check_num_voices rejectAll (samplePorts 32 1 8192)
          { self := samplePlugin, calls := [] }).self.changing_state = false
      ∧ (run_periodic rejectAll true 48001
          { self := samplePlugin, calls := [] }).self.changing_state = false := by
  decide

/-- C5: with pairwise distinct request URIDs, `work_response` on a non-null
atom whose type is the sfz-file, num-voices, preload-size, oversampling or
check-modification URID returns `LV2_WORKER_SUCCESS`, sets `changing_state`
to false and changes nothing else (no field, no call); on a log-status atom it
returns `LV2_WORKER_SUCCESS` and changes nothing at all. -/
theorem work_response_clears_guard {σ : Type} (x : Exec σ) (size : Nat) (atom : LV2_Atom)
    (hdistinct : distinct_kinds x.self) :
    (atom.type ∈ [x.self.sfizz_sfz_file_uri, x.self.sfizz_num_voices_uri,
        x.self.sfizz_preload_size_uri, x.self.sfizz_oversampling_uri,
        x.self.sfizz_check_modification_uri] →
      work_response x size (some atom)
        = (LV2_WORKER_SUCCESS, { x with self := { x.self with changing_state := false } }))
    ∧ (atom.type = x.self.sfizz_log_status_uri →
      work_response x size (some atom) = (LV2_WORKER_SUCCESS, x)) := by
  simp only [distinct_kinds, List.nodup_cons, List.mem_cons, List.mem_singleton, not_or,
    List.not_mem_nil, not_false_eq_true, List.nodup_nil, and_true] at hdistinct
  obtain ⟨⟨h12, h13, h14, h15, h16⟩, ⟨h23, h24, h25, h26⟩, ⟨h34, h35, h36⟩, ⟨h45, h46⟩, h56⟩ :=
    hdistinct
  constructor
  · intro h
    simp only [List.mem_cons, List.mem_singleton, List.not_mem_nil, or_false] at h
    unfold work_response
    simp only [Exec.set_changing_state]
    rcases h with h | h | h | h | h <;> rw [h] <;> simp [*, Ne.symm, eq_comm]
  · intro h
    unfold work_response
    simp only [h]
    simp [*, Ne.symm, eq_comm]

/-- C5 (witness): a check-modification response and a log-status response
delivered to the sample instance with the guard set. -/
theorem work_response_clears_guard_witness :
    distinct_kinds samplePlugin
      ∧ (work_response { self := { samplePlugin with changing_state := true }, calls := [] } 8
          (some { size := 0, type := 22, body := [] })).2.self.changing_state = false
      ∧ (work_response { self := { samplePlugin with changing_state := true }, calls := [] } 8
          (some { size := 0, type := 21, body := [] })).2.self.changing_state = true :=
  have hd : distinct_kinds ({ samplePlugin with changing_state := true }) := by decide
  have h := work_response_clears_guard
    { self := { samplePlugin with changing_state := true }, calls := [] } 8
  ⟨by decide,
   by rw [(h { size := 0, type := 22, body := [] } hd).1 (by decide)],
   by rw [(h { size := 0, type := 21, body := [] } hd).2 rfl]⟩

theorem responded_append (a b : List Call) : responded (a ++ b) = responded a ++ responded b := by
  induction a with
  | nil => rfl
  | cons c rest ih => cases c <;> simp [responded, ih]

theorem responded_update_file_info {σ : Type} (api : SfizzAPI σ) (x : Exec σ) (p : List Nat) :
    responded (sfizz_lv2_update_file_info api x p).calls = responded x.calls := by
  unfold sfizz_lv2_update_file_info
  simp only [Exec.call]
  split <;> simp [responded_append, responded]

theorem responded_load_file {σ : Type} (api : SfizzAPI σ) (x : Exec σ) (p : List Nat) :
    responded (load_file api x p).2.calls = responded x.calls := by
  simp [load_file, responded_append, responded]

theorem responded_work_dispatch {σ : Type} (api : SfizzAPI σ) (x y : Exec σ) (atom : LV2_Atom)
    (h : work_dispatch api x atom = some y) : responded y.calls = responded x.calls := by
  unfold work_dispatch at h
  split_ifs at h <;> simp only [Option.some.injEq] at h <;> subst h
  · unfold work_sfz_file
    simp only
    split_ifs
    · rw [responded_update_file_info, responded_load_file]
    · simp [Exec.call, responded_append, responded, responded_load_file]
  · unfold work_num_voices
    simp only [Exec.engine, Exec.call]
    split_ifs <;> simp [responded_append, responded]
  · unfold work_preload_size
    simp only [Exec.engine, Exec.call]
    split_ifs <;> simp [responded_append, responded]
  · unfold work_oversampling
    simp only [Exec.engine, Exec.call]
    split_ifs <;> simp [responded_append, responded]
  · rfl
  · unfold work_check_modification
    simp only
    split_ifs
    · rfl
    · rw [responded_update_file_info, responded_load_file]
      simp [Exec.call, responded_append, responded]
    · simp [Exec.call, responded_append, responded, responded_load_file]
    · simp [Exec.call, responded_append, responded]

theorem work_dispatch_known {σ : Type} (api : SfizzAPI σ) (x : Exec σ) (atom : LV2_Atom)
    (h : atom.type ∈ [x.self.sfizz_sfz_file_uri, x.self.sfizz_num_voices_uri,
        x.self.sfizz_preload_size_uri, x.self.sfizz_oversampling_uri,
        x.self.sfizz_log_status_uri, x.self.sfizz_check_modification_uri]) :
    ∃ y, work_dispatch api x atom = some y := by
  simp only [List.mem_cons, List.mem_singleton, List.not_mem_nil, or_false] at h
  unfold work_dispatch
  split_ifs <;> first | exact ⟨_, rfl⟩ | (exfalso; tauto)

/-- C6: for every non-null request atom whose type is one of the six known
URIDs, `work` returns `LV2_WORKER_SUCCESS` and adds exactly one `respond`
call to the trace, carrying the size and the atom it received, for every
engine (so whatever `sfizz_load_file` returns and whatever value the engine
accepts). -/
theorem work_responds_once {σ : Type} (api : SfizzAPI σ) (x : Exec σ) (size : Nat)
    (atom : LV2_Atom)
    (hkind : atom.type ∈ [x.self.sfizz_sfz_file_uri, x.self.sfizz_num_voices_uri,
        x.self.sfizz_preload_size_uri, x.self.sfizz_oversampling_uri,
        x.self.sfizz_log_status_uri, x.self.sfizz_check_modification_uri]) :
    (work api x size (some atom)).1 = LV2_WORKER_SUCCESS
      ∧ responded (work api x size (some atom)).2.calls = responded x.calls ++ [(size, atom)] := by
  obtain ⟨y, hy⟩ := work_dispatch_known api x atom hkind
  unfold work
  simp only [hy, Exec.call, responded_append, responded, true_and]
  rw [responded_work_dispatch api x y atom hy]

/-- C7: for null data and for every atom whose type is none of the six known
URIDs, `work` and `work_response` return `LV2_WORKER_ERR_UNKNOWN`, leave the
whole instance (engine state, `changing_state`, `sfz_file_path`, `num_voices`,
`preload_size`, `oversampling`) unchanged, and make no call other than
`lv2_log_error`: no `respond` and no engine call. -/
theorem unknown_kind_dropped {σ : Type} (api : SfizzAPI σ) (x : Exec σ) (size : Nat)
    (atom : LV2_Atom)
    (hkind : atom.type ∉ [x.self.sfizz_sfz_file_uri, x.self.sfizz_num_voices_uri,
        x.self.sfizz_preload_size_uri, x.self.sfizz_oversampling_uri,
        x.self.sfizz_log_status_uri, x.self.sfizz_check_modification_uri]) :
    (∀ data ∈ [none, some atom],
      (work api x size data).1 = LV2_WORKER_ERR_UNKNOWN
        ∧ (work api x size data).2.self = x.self
        ∧ (∃ logs, (work api x size data).2.calls = x.calls ++ logs
            ∧ ∀ c ∈ logs, c = Call.lv2_log_error)
        ∧ (work_response x size data).1 = LV2_WORKER_ERR_UNKNOWN
        ∧ (work_response x size data).2.self = x.self
        ∧ (∃ logs, (work_response x size data).2.calls = x.calls ++ logs
            ∧ ∀ c ∈ logs, c = Call.lv2_log_error)) := by
  simp only [List.mem_cons, List.mem_singleton, List.not_mem_nil, or_false, not_or] at hkind
  obtain ⟨h1, h2, h3, h4, h5, h6⟩ := hkind
  have hwarn : (warn_with_uri x Call.lv2_log_error Call.lv2_log_error).self = x.self
      ∧ ∃ logs, (warn_with_uri x Call.lv2_log_error Call.lv2_log_error).calls = x.calls ++ logs
          ∧ ∀ c ∈ logs, c = Call.lv2_log_error := by
    unfold warn_with_uri
    simp only [Exec.call]
    split_ifs
    · exact ⟨rfl, [Call.lv2_log_error, Call.lv2_log_error], by simp, by simp⟩
    · exact ⟨rfl, [Call.lv2_log_error], rfl, by simp⟩
  intro data hdata
  simp only [List.mem_cons, List.mem_singleton, List.not_mem_nil, or_false] at hdata
  rcases hdata with rfl | rfl
  · exact ⟨rfl, rfl, ⟨[Call.lv2_log_error], rfl, by simp⟩, rfl, rfl, ⟨[], by simp [work_response], by simp⟩⟩
  · have hd : work_dispatch api x atom = none := by
      unfold work_dispatch
      simp [h1, h2, h3, h4, h5, h6]
    have hw : work api x size (some atom)
        = (LV2_WORKER_ERR_UNKNOWN, warn_with_uri x Call.lv2_log_error Call.lv2_log_error) := by
      unfold work
      simp only [hd]
    have hr : work_response x size (some atom)
        = (LV2_WORKER_ERR_UNKNOWN, warn_with_uri x Call.lv2_log_error Call.lv2_log_error) := by
      unfold work_response
      simp [h1, h2, h3, h4, h5, h6]
    rw [hw, hr]
    exact ⟨rfl, hwarn.1, hwarn.2, rfl, hwarn.1, hwarn.2⟩

theorem update_file_info_self {σ : Type} (api : SfizzAPI σ) (x : Exec σ) (p : List Nat) :
    (sfizz_lv2_update_file_info api x p).self = { x.self with sfz_file_path := p } := by
  unfold sfizz_lv2_update_file_info
  simp only [Exec.call]
  split <;> rfl

theorem distinct_kinds_ne {σ : Type} (self : sfizz_plugin_t σ) (h : distinct_kinds self) :
    (self.sfizz_sfz_file_uri ≠ self.sfizz_num_voices_uri
      ∧ self.sfizz_sfz_file_uri ≠ self.sfizz_preload_size_uri
      ∧ self.sfizz_sfz_file_uri ≠ self.sfizz_oversampling_uri
      ∧ self.sfizz_sfz_file_uri ≠ self.sfizz_log_status_uri
      ∧ self.sfizz_sfz_file_uri ≠ self.sfizz_check_modification_uri)
    ∧ (self.sfizz_num_voices_uri ≠ self.sfizz_preload_size_uri
      ∧ self.sfizz_num_voices_uri ≠ self.sfizz_oversampling_uri
      ∧ self.sfizz_num_voices_uri ≠ self.sfizz_log_status_uri
      ∧ self.sfizz_num_voices_uri ≠ self.sfizz_check_modification_uri)
    ∧ (self.sfizz_preload_size_uri ≠ self.sfizz_oversampling_uri
      ∧ self.sfizz_preload_size_uri ≠ self.sfizz_log_status_uri
      ∧ self.sfizz_preload_size_uri ≠ self.sfizz_check_modification_uri)
    ∧ (self.sfizz_oversampling_uri ≠ self.sfizz_log_status_uri
      ∧ self.sfizz_oversampling_uri ≠ self.sfizz_check_modification_uri)
    ∧ self.sfizz_log_status_uri ≠ self.sfizz_check_modification_uri := by
  simpa only [distinct_kinds, List.nodup_cons, List.mem_cons, List.mem_singleton, not_or,
    List.not_mem_nil, not_false_eq_true, List.nodup_nil, and_true, ne_eq] using h

theorem work_dispatch_check_modification {σ : Type} (api : SfizzAPI σ) (x : Exec σ)
    (atom : LV2_Atom) (hd : distinct_kinds x.self)
    (ht : atom.type = x.self.sfizz_check_modification_uri) :
    work_dispatch api x atom = some (work_check_modification api x) := by
  obtain ⟨⟨_, _, _, _, h16⟩, ⟨_, _, _, h26⟩, ⟨_, _, h36⟩, ⟨_, h46⟩, h56⟩ :=
    distinct_kinds_ne x.self hd
  unfold work_dispatch
  simp [ht, Ne.symm h16, Ne.symm h26, Ne.symm h36, Ne.symm h46, Ne.symm h56]

theorem work_check_modification_self {σ : Type} (api : SfizzAPI σ) (x : Exec σ) :
    (work_check_modification api x).self
      = { x.self with synth := (work_check_modification api x).self.synth } := by
  unfold work_check_modification
  simp only
  split_ifs
  · rfl
  · rw [update_file_info_self]; rfl
  · rfl
  · rfl

theorem restore_num_voices_path {σ : Type} (api : SfizzAPI σ) (retrieve : Retrieve)
    (y : Exec σ) :
    (restore_num_voices api retrieve y).self.sfz_file_path = y.self.sfz_file_path := by
  unfold restore_num_voices
  cases retrieve y.self.sfizz_num_voices_uri with
  | none => rfl
  | some value =>
    simp only
    by_cases h : read_int32 value > 0 ∧ read_int32 value ≤ MAX_VOICES
        ∧ read_int32 value ≠ y.self.num_voices
    · rw [if_pos h]; rfl
    · rw [if_neg h]

theorem restore_preload_size_path {σ : Type} (api : SfizzAPI σ) (retrieve : Retrieve)
    (y : Exec σ) :
    (restore_preload_size api retrieve y).self.sfz_file_path = y.self.sfz_file_path := by
  unfold restore_preload_size
  cases retrieve y.self.sfizz_preload_size_uri with
  | none => rfl
  | some value =>
    simp only
    by_cases h : read_uint32 value ≠ y.self.preload_size
    · rw [if_pos h]; rfl
    · rw [if_neg h]

theorem restore_oversampling_path {σ : Type} (api : SfizzAPI σ) (retrieve : Retrieve)
    (y : Exec σ) :
    (restore_oversampling api retrieve y).self.sfz_file_path = y.self.sfz_file_path := by
  unfold restore_oversampling
  cases retrieve y.self.sfizz_oversampling_uri with
  | none => rfl
  | some value =>
    simp only
    by_cases h : read_int32 value ≠ y.self.oversampling
    · rw [if_pos h]; rfl
    · rw [if_neg h]

/-- C8: in `work` for a load-file request and in the file block of `restore`,
when `sfizz_load_file` returns false the instance changes only in its engine
state (`sfz_file_path`, `num_voices`, `preload_size`, `oversampling` are kept),
and `restore` as a whole returns with the `sfz_file_path` it started with;
when it returns true the only other change is that `sfz_file_path` becomes the
requested path.  In `work` for a check-modification request the instance
changes only in its engine state whatever the load returns. -/
theorem load_failure_keeps_configuration {σ : Type} (api : SfizzAPI σ) (x : Exec σ)
    (size : Nat) (atom : LV2_Atom) (retrieve : Retrieve) (value : List Nat)
    (hdistinct : distinct_kinds x.self)
    (hvalue : retrieve x.self.sfizz_sfz_file_uri = some value) :
    (atom.type = x.self.sfizz_sfz_file_uri →
      ((api.sfizz_load_file x.self.synth (c_string atom.body)).1 = false →
        (work api x size (some atom)).2.self
          = { x.self with synth := (api.sfizz_load_file x.self.synth (c_string atom.body)).2 })
      ∧ ((api.sfizz_load_file x.self.synth (c_string atom.body)).1 = true →
        (work api x size (some atom)).2.self
          = { x.self with synth := (api.sfizz_load_file x.self.synth (c_string atom.body)).2,
                          sfz_file_path := c_string atom.body }))
    ∧ (atom.type = x.self.sfizz_check_modification_uri →
      (work api x size (some atom)).2.self
        = { x.self with synth := (work api x size (some atom)).2.self.synth })
    ∧ ((api.sfizz_load_file x.self.synth (c_string value)).1 = false →
        (restore_file api retrieve x).self
          = { x.self with synth := (api.sfizz_load_file x.self.synth (c_string value)).2 }
        ∧ (restore api retrieve x).self.sfz_file_path = x.self.sfz_file_path)
    ∧ ((api.sfizz_load_file x.self.synth (c_string value)).1 = true →
        (restore_file api retrieve x).self
          = { x.self with synth := (api.sfizz_load_file x.self.synth (c_string value)).2,
                          sfz_file_path := c_string value }) := by
  have hpath : ∀ y : Exec σ, (restore_oversampling api retrieve
      (restore_preload_size api retrieve (restore_num_voices api retrieve y))).self.sfz_file_path
        = y.self.sfz_file_path := by
    intro y
    rw [restore_oversampling_path, restore_preload_size_path, restore_num_voices_path]
  refine ⟨?_, ?_, ?_, ?_⟩
  · intro ht
    have hw : work_dispatch api x atom = some (work_sfz_file api x atom) := by
      unfold work_dispatch
      rw [if_pos ht]
    constructor
    · intro hl
      simp only [work, hw, Exec.call]
      unfold work_sfz_file
      simp only [load_file, hl, Exec.call]
      rfl
    · intro hl
      simp only [work, hw, Exec.call]
      unfold work_sfz_file
      simp only [load_file, hl, if_true]
      rw [update_file_info_self]
  · intro ht
    have hw := work_dispatch_check_modification api x atom hdistinct ht
    simp only [work, hw, Exec.call]
    exact work_check_modification_self api x
  · intro hl
    have hf : (restore_file api retrieve x).self
        = { x.self with synth := (api.sfizz_load_file x.self.synth (c_string value)).2 } := by
      unfold restore_file
      simp only [hvalue, load_file, Exec.call, hl]
      rfl
    refine ⟨hf, ?_⟩
    unfold restore
    rw [hpath, hf]
  · intro hl
    unfold restore_file
    simp only [hvalue, load_file, Exec.call, hl, if_true]
    rw [update_file_info_self]

/-- C9: after `work` handles a num-voices (resp. preload-size, oversampling)
request with payload `v`, the field `num_voices` (resp. `preload_size`,
`oversampling`) is `v` if the engine getter, called after the setter, returns
`v`, and is its former value otherwise; apart from the engine state no other
field changes. -/
theorem work_validates_applied_value {σ : Type} (api : SfizzAPI σ) (x : Exec σ) (size : Nat)
    (atom : LV2_Atom) (hdistinct : distinct_kinds x.self) :
    (atom.type = x.self.sfizz_num_voices_uri →
      (work api x size (some atom)).2.self
        = { x.self with
            synth := api.sfizz_set_num_voices x.self.synth (read_int32 atom.body)
            num_voices :=
              if api.sfizz_get_num_voices
                  (api.sfizz_set_num_voices x.self.synth (read_int32 atom.body))
                  = read_int32 atom.body
              then read_int32 atom.body else x.self.num_voices })
    ∧ (atom.type = x.self.sfizz_preload_size_uri →
      (work api x size (some atom)).2.self
        = { x.self with
            synth := api.sfizz_set_preload_size x.self.synth (read_uint32 atom.body)
            preload_size :=
              if api.sfizz_get_preload_size
                  (api.sfizz_set_preload_size x.self.synth (read_uint32 atom.body))
                  = read_uint32 atom.body
              then read_uint32 atom.body else x.self.preload_size })
    ∧ (atom.type = x.self.sfizz_oversampling_uri →
      (work api x size (some atom)).2.self
        = { x.self with
            synth := api.sfizz_set_oversampling_factor x.self.synth (read_int32 atom.body)
            oversampling :=
              if api.sfizz_get_oversampling_factor
                  (api.sfizz_set_oversampling_factor x.self.synth (read_int32 atom.body))
                  = read_int32 atom.body
              then read_int32 atom.body else x.self.oversampling }) := by
  obtain ⟨⟨h12, h13, h14, _, _⟩, ⟨h23, h24, _, _⟩, ⟨h34, _, _⟩, _, _⟩ :=
    distinct_kinds_ne x.self hdistinct
  refine ⟨?_, ?_, ?_⟩
  · intro ht
    have hw : work_dispatch api x atom = some (work_num_voices api x atom) := by
      unfold work_dispatch; simp [ht, Ne.symm h12]
    simp only [work, hw, work_num_voices, Exec.call, Exec.engine]
    split_ifs <;> rfl
  · intro ht
    have hw : work_dispatch api x atom = some (work_preload_size api x atom) := by
      unfold work_dispatch; simp [ht, Ne.symm h13, Ne.symm h23]
    simp only [work, hw, work_preload_size, Exec.call, Exec.engine]
    split_ifs <;> rfl
  · intro ht
    have hw : work_dispatch api x atom = some (work_oversampling api x atom) := by
      unfold work_dispatch; simp [ht, Ne.symm h14, Ne.symm h24, Ne.symm h34]
    simp only [work, hw, work_oversampling, Exec.call, Exec.engine]
    split_ifs <;> rfl

/-- C10: for each of the three check routines, if the port value cast to the
field's type equals the stored field, the routine makes no call and returns
the instance unchanged, whatever `changing_state` is. -/
theorem checks_idempotent {σ : Type} (host : Scheduler) (ports : Ports) (x : Exec σ) :
    (to_uint32 (cast_int ports.preload_port) = x.self.preload_size →
      sfizz_lv2_check_preload_size host ports x = x)
    ∧ (cast_int ports.oversampling_port = x.self.oversampling →
      sfizz_lv2_check_oversampling host ports x = x)
    ∧ (cast_int ports.polyphony_port = x.self.num_voices →
      sfizz_lv2_check_num_voices host ports x = x) := by
  refine ⟨?_, ?_, ?_⟩
  · intro h; simp [sfizz_lv2_check_preload_size, h]
  · intro h; simp [sfizz_lv2_check_oversampling, h]
  · intro h; simp [sfizz_lv2_check_num_voices, h]

/-- C6 (witness): a voice count of 300, which the sample engine refuses, is
still answered once. -/
theorem work_responds_once_witness :
    (work sampleAPI { self := samplePlugin, calls := [] } 12 (some (atom_int 18 300))).1
        = LV2_WORKER_SUCCESS
      ∧ responded (work sampleAPI { self := samplePlugin, calls := [] } 12
          (some (atom_int 18 300))).2.calls = [(12, atom_int 18 300)] :=
  work_responds_once sampleAPI { self := samplePlugin, calls := [] } 12 (atom_int 18 300)
    (by decide)

/-- C7 (witness): an atom of type 99 handed to the sample instance. -/
theorem unknown_kind_dropped_witness :
    (work sampleAPI { self := samplePlugin, calls := [] } 12 (some (atom_int 99 1))).1
        = LV2_WORKER_ERR_UNKNOWN
      ∧ (work sampleAPI { self := samplePlugin, calls := [] } 12 none).1
        = LV2_WORKER_ERR_UNKNOWN :=
  have h := unknown_kind_dropped sampleAPI { self := samplePlugin, calls := [] } 12
    (atom_int 99 1) (by decide)
  ⟨(h (some (atom_int 99 1)) (by simp)).1, (h none (by simp)).1⟩

/-- C8 (witness): the sample engine refuses the empty path, in `work` and in
`restore`. -/
theorem load_failure_keeps_configuration_witness :
    (work sampleAPI { self := samplePlugin, calls := [] } 10 (some emptyPathRequest)).2.self
        = samplePlugin
      ∧ (restore sampleAPI emptyPathStore { self := samplePlugin, calls := [] }).self.sfz_file_path
        = samplePlugin.sfz_file_path :=
  have h := load_failure_keeps_configuration sampleAPI { self := samplePlugin, calls := [] } 10
    emptyPathRequest emptyPathStore [0] (by decide) rfl
  ⟨(h.1 rfl).1 rfl, (h.2.2.1 rfl).2⟩

/-- C9 (witness): a voice count of 32 is applied by the sample engine. -/
theorem work_validates_applied_value_witness :
    distinct_kinds samplePlugin
      ∧ (work sampleAPI { self := samplePlugin, calls := [] } 12
          (some (atom_int 18 32))).2.self.num_voices = 32 :=
  have h := (work_validates_applied_value sampleAPI { self := samplePlugin, calls := [] } 12
    (atom_int 18 32) (by decide)).1 rfl
  ⟨by decide, by rw [h]; decide⟩

/-- C10 (witness): ports equal to the stored configuration of the sample instance. -/
theorem checks_idempotent_witness :
    sfizz_lv2_check_preload_size acceptAll (samplePorts 64 1 8192)
        { self := samplePlugin, calls := [] } = { self := samplePlugin, calls := [] }
      ∧ sfizz_lv2_check_oversampling acceptAll (samplePorts 64 1 8192)
        { self := samplePlugin, calls := [] } = { self := samplePlugin, calls := [] }
      ∧ sfizz_lv2_check_num_voices acceptAll (samplePorts 64 1 8192)
        { self := samplePlugin, calls := [] } = { self := samplePlugin, calls := [] } :=
  have h := checks_idempotent acceptAll (samplePorts 64 1 8192)
    { self := samplePlugin, calls := [] }
  ⟨h.1 (by decide), h.2.1 (by decide), h.2.2 (by decide)⟩

theorem Book.book_refl {σ : Type} (x : Exec σ) : Book x x :=
  ⟨rfl, [], by simp, by simp⟩

theorem Book.book_trans {σ : Type} {x y z : Exec σ} (h1 : Book x y) (h2 : Book y z) : Book x z := by
  obtain ⟨a1, e1, c1, p1⟩ := h1
  obtain ⟨a2, e2, c2, p2⟩ := h2
  refine ⟨?_, e1 ++ e2, ?_, ?_⟩
  · rw [a2, a1]
  · rw [c2, c1, List.append_assoc]
  · intro c hc
    rcases List.mem_append.mp hc with h | h
    · exact p1 c h
    · exact p2 c h

theorem Book.book_call {σ : Type} (x : Exec σ) (c : Call) (hc : c.bookkeeping = true) :
    Book x (x.call c) :=
  ⟨rfl, [c], rfl, by simpa using hc⟩

theorem Book.book_engine {σ : Type} (x : Exec σ) (c : Call) (f : σ → σ) (hc : c.bookkeeping = true) :
    Book x (x.engine c f) :=
  ⟨rfl, [c], rfl, by simpa using hc⟩

theorem Book.book_warn {σ : Type} (x : Exec σ) (a b : Call) (ha : a.bookkeeping = true)
    (hb : b.bookkeeping = true) : Book x (warn_with_uri x a b) := by
  unfold warn_with_uri
  by_cases hu : (x.call a).self.unmap = true
  · simp only [hu, if_true]
    exact (Book.book_call x a ha).book_trans (Book.book_call _ b hb)
  · simp only [hu]
    exact Book.book_call x a ha

theorem Book.book_schedule {σ : Type} (host : Scheduler) (x : Exec σ) (size : Nat) (data : LV2_Atom)
    (hd : data.body.isEmpty = false) : Book x (schedule_work host x size data).2 :=
  ⟨rfl, [Call.schedule_work size data], rfl, by simp [Call.bookkeeping, hd]⟩

theorem Book.book_set_changing_state {σ : Type} (x : Exec σ) (b : Bool) :
    Book x (x.set_changing_state b) :=
  ⟨rfl, [], by simp [Exec.set_changing_state], by simp⟩

theorem Book.book_handle {σ : Type} (host : Scheduler) (x : Exec σ) (obj : LV2_Atom_Object) :
    Book x (sfizz_lv2_handle_atom_object host x obj) := by
  unfold sfizz_lv2_handle_atom_object
  cases lv2_atom_object_get obj x.self.patch_property_uri with
  | none => exact Book.book_call _ _ rfl
  | some property =>
    simp only
    by_cases h1 : property.type = x.self.atom_urid_uri
    · simp only [h1, ne_eq, not_true_eq_false, if_false]
      cases lv2_atom_object_get obj x.self.patch_value_uri with
      | none => exact Book.book_warn _ _ _ rfl rfl
      | some atom =>
        simp only
        by_cases h2 : read_uint32 property.body = x.self.sfizz_sfz_file_uri
        · simp only [h2, if_true]
          by_cases h3 : x.self.changing_state = true
          · simp only [h3, if_true]
            exact Book.book_call _ _ rfl
          · simp only [h3]
            exact (Book.book_set_changing_state x true).book_trans
              (Book.book_schedule host _ _ _ (by simp))
        · simp only [h2, if_false]
          exact Book.book_warn _ _ _ rfl rfl
    · simp only [ne_eq, h1, not_false_eq_true, if_true]
      exact Book.book_call _ _ rfl

theorem Book.book_check {σ : Type} (host : Scheduler) (x : Exec σ) (c : Prop) [Decidable c]
    (uri : LV2_URID) (v : Int) :
    Book x (if c then
      (if (schedule_work host x (lv2_atom_total_size (atom_int uri v)) (atom_int uri v)).1
          = LV2_WORKER_SUCCESS
        then (schedule_work host x (lv2_atom_total_size (atom_int uri v))
          (atom_int uri v)).2.set_changing_state true
        else (schedule_work host x (lv2_atom_total_size (atom_int uri v)) (atom_int uri v)).2)
      else x) := by
  have hs : Book x (schedule_work host x (lv2_atom_total_size (atom_int uri v))
      (atom_int uri v)).2 := Book.book_schedule host x _ _ (by simp [atom_int, le32])
  by_cases hc : c
  · rw [if_pos hc]
    split_ifs
    · exact hs.book_trans (Book.book_set_changing_state _ true)
    · exact hs
  · rw [if_neg hc]
    exact Book.book_refl x

theorem Book.book_check_preload_size {σ : Type} (host : Scheduler) (ports : Ports) (x : Exec σ) :
    Book x (sfizz_lv2_check_preload_size host ports x) :=
  Book.book_check host x _ _ _

theorem Book.book_check_oversampling {σ : Type} (host : Scheduler) (ports : Ports) (x : Exec σ) :
    Book x (sfizz_lv2_check_oversampling host ports x) :=
  Book.book_check host x _ _ _

theorem Book.book_check_num_voices {σ : Type} (host : Scheduler) (ports : Ports) (x : Exec σ) :
    Book x (sfizz_lv2_check_num_voices host ports x) :=
  Book.book_check host x _ _ _

theorem Book.book_check_freewheeling {σ : Type} (api : SfizzAPI σ) (ports : Ports) (x : Exec σ) :
    Book x (sfizz_lv2_check_freewheeling api ports x) := by
  unfold sfizz_lv2_check_freewheeling
  by_cases h : ports.freewheel_port.pos = true
  · rw [if_pos h]; exact Book.book_engine _ _ _ rfl
  · rw [if_neg h]; exact Book.book_engine _ _ _ rfl

theorem run_connected {σ : Type} (api : SfizzAPI σ) (host : Scheduler) (NDEBUG : Bool)
    (ports : Ports) (evs : List LV2_Atom_Event) (capacity sample_count : Nat) (x : Exec σ)
    (hcontrol : ports.control_port = some evs) (hnotify : ports.notify_port = some capacity) :
    run api host NDEBUG ports sample_count x
      = (run_periodic host NDEBUG sample_count
          (run_front api host ports evs capacity x)).engine
            (Call.sfizz_render_block 2 (wrap_int32 sample_count))
            (fun s => api.sfizz_render_block s 2 (wrap_int32 sample_count)) := by
  unfold run
  simp only [hcontrol, hnotify]
  rfl

theorem run_unconnected {σ : Type} (api : SfizzAPI σ) (host : Scheduler) (NDEBUG : Bool)
    (ports : Ports) (sample_count : Nat) (x : Exec σ)
    (h : ports.control_port = none ∨ ports.notify_port = none) :
    run api host NDEBUG ports sample_count x = x := by
  unfold run
  rcases h with h | h
  · simp only [h]
  · cases hc : ports.control_port <;> simp only [h]

theorem midi_type_nibble (m k : Nat) (hm : m < 256) (hk : k = 8 ∨ k = 9 ∨ k = 11 ∨ k = 14) :
    lv2_midi_message_type m = k * 16 ↔ m / 16 = k := by
  unfold lv2_midi_message_type lv2_midi_is_voice_message lv2_midi_is_system_message
  by_cases h1 : 128 ≤ m <;> by_cases h2 : m < 240 <;> simp [h1, h2] <;> (try split_ifs) <;> omega

theorem process_midi_event_calls {σ : Type} (api : SfizzAPI σ) (x : Exec σ)
    (ev : LV2_Atom_Event) :
    (sfizz_lv2_process_midi_event api x ev).self
        = { x.self with synth := (sfizz_lv2_process_midi_event api x ev).self.synth }
      ∧ (sfizz_lv2_process_midi_event api x ev).calls = x.calls ++ (midi_call ev).toList := by
  have hb : ev.body.body.getD 0 0 % 256 < 256 := Nat.mod_lt _ (by decide)
  have h9 := midi_type_nibble _ 9 hb (by decide)
  have h8 := midi_type_nibble _ 8 hb (by decide)
  have h11 := midi_type_nibble _ 11 hb (by decide)
  have h14 := midi_type_nibble _ 14 hb (by decide)
  have hp : PITCH_BUILD_AND_CENTER (ev.body.body.getD 1 0 % 256) (ev.body.body.getD 2 0 % 256)
      = ((ev.body.body.getD 2 0 % 256 : Nat) : Int) * 128
          + ((ev.body.body.getD 1 0 % 256 : Nat) : Int) - 8192 := by
    unfold PITCH_BUILD_AND_CENTER wrap_int32
    omega
  unfold sfizz_lv2_process_midi_event midi_call
  simp only [LV2_MIDI_MSG_NOTE_ON, LV2_MIDI_MSG_NOTE_OFF, LV2_MIDI_MSG_CONTROLLER,
    LV2_MIDI_MSG_BENDER]
  by_cases c9 : ev.body.body.getD 0 0 % 256 / 16 = 9
  · rw [if_pos (h9.mpr c9), if_pos c9]; exact ⟨rfl, rfl⟩
  · rw [if_neg (fun h => c9 (h9.mp h)), if_neg c9]
    by_cases c8 : ev.body.body.getD 0 0 % 256 / 16 = 8
    · rw [if_pos (h8.mpr c8), if_pos c8]; exact ⟨rfl, rfl⟩
    · rw [if_neg (fun h => c8 (h8.mp h)), if_neg c8]
      by_cases c11 : ev.body.body.getD 0 0 % 256 / 16 = 11
      · rw [if_pos (h11.mpr c11), if_pos c11]; exact ⟨rfl, rfl⟩
      · rw [if_neg (fun h => c11 (h11.mp h)), if_neg c11]
        by_cases c14 : ev.body.body.getD 0 0 % 256 / 16 = 14
        · rw [if_pos (h14.mpr c14), if_pos c14]
          refine ⟨rfl, ?_⟩
          simp only [Exec.engine, Option.toList, hp]
        · rw [if_neg (fun h => c14 (h14.mp h)), if_neg c14]
          exact ⟨rfl, by simp⟩

theorem Traces.traces_refl {σ : Type} (p : Call → Bool) (x : Exec σ) : Traces p [] x x :=
  ⟨rfl, by simp⟩

theorem Traces.traces_trans {σ : Type} {p : Call → Bool} {a b : List Call} {x y z : Exec σ}
    (h1 : Traces p a x y) (h2 : Traces p b y z) : Traces p (a ++ b) x z := by
  obtain ⟨s1, c1⟩ := h1
  obtain ⟨s2, c2⟩ := h2
  refine ⟨?_, ?_⟩
  · rw [s2, s1]
  · rw [c2, c1, List.filter_append, List.append_assoc]

theorem Book.book_traces {σ : Type} {p : Call → Bool} {x y : Exec σ}
    (hp : ∀ c : Call, c.bookkeeping = true → p c = false) (h : Book x y) : Traces p [] x y := by
  obtain ⟨hs, extra, hc, he⟩ := h
  refine ⟨hs, ?_⟩
  have : extra.filter p = [] := by
    rw [List.filter_eq_nil_iff]
    intro c hmem
    rw [hp c (he c hmem)]
    simp
  rw [hc, List.filter_append, this]
  simp

theorem forwarded_frame {σ : Type} (a b : sfizz_plugin_t σ)
    (h : b = { a with synth := b.synth, changing_state := b.changing_state }) :
    forwarded b = forwarded a := by
  rw [h]
  rfl

theorem Traces.traces_run_event {σ : Type} (api : SfizzAPI σ) (host : Scheduler) (p : Call → Bool)
    (hp : ∀ c : Call, c.bookkeeping = true → p c = false) (x : Exec σ) (ev : LV2_Atom_Event) :
    Traces p (forwarded x.self ev) x (Sfizz.run_event api host x ev) := by
  unfold Sfizz.run_event forwarded
  by_cases h1 : ev.body.type = x.self.atom_object_uri
  · rw [if_pos h1, if_pos h1]
    apply Book.book_traces hp
    by_cases h2 : ev.obj.otype = x.self.patch_set_uri
    · simp only [h2, if_true]
      exact Book.book_handle host x ev.obj
    · simp only [h2, if_false]
      by_cases h3 : ev.obj.otype = x.self.patch_get_uri
      · simp only [h3, if_true]
        cases lv2_atom_object_get ev.obj x.self.patch_property_uri with
        | none => exact Book.book_call _ _ rfl
        | some property =>
          simp only
          by_cases h4 : read_uint32 property.body = x.self.sfizz_sfz_file_uri
          · rw [if_pos h4]; exact Book.book_call _ _ rfl
          · rw [if_neg h4]; exact Book.book_refl x
      · simp only [h3, if_false]
        exact Book.book_warn _ _ _ rfl rfl
  · rw [if_neg h1, if_neg h1]
    by_cases h2 : ev.body.type = x.self.midi_event_uri
    · rw [if_pos h2, if_pos h2]
      obtain ⟨hs, hc⟩ := process_midi_event_calls api x ev
      refine ⟨?_, ?_⟩
      · rw [hs]
      · rw [hc, List.filter_append]
    · rw [if_neg h2, if_neg h2]
      exact Traces.traces_refl p x

theorem Traces.traces_events {σ : Type} (api : SfizzAPI σ) (host : Scheduler) (p : Call → Bool)
    (hp : ∀ c : Call, c.bookkeeping = true → p c = false) (evs : List LV2_Atom_Event)
    (x : Exec σ) :
    Traces p (forwarded_all x.self evs) x (evs.foldl (Sfizz.run_event api host) x) := by
  induction evs generalizing x with
  | nil => exact Traces.traces_refl p x
  | cons ev rest ih =>
    simp only [List.foldl_cons, forwarded_all]
    have h1 := Traces.traces_run_event api host p hp x ev
    have h2 := ih (Sfizz.run_event api host x ev)
    have hf : forwarded_all (Sfizz.run_event api host x ev).self rest
        = forwarded_all x.self rest := by
      have := forwarded_frame x.self (Sfizz.run_event api host x ev).self h1.1
      clear h2 ih
      induction rest with
      | nil => rfl
      | cons e r ihr => simp only [forwarded_all, this, ihr]
    rw [hf] at h2
    exact h1.traces_trans h2

theorem Traces.traces_run_front {σ : Type} (api : SfizzAPI σ) (host : Scheduler) (ports : Ports)
    (p : Call → Bool) (hp : ∀ c : Call, c.bookkeeping = true → p c = false)
    (evs : List LV2_Atom_Event) (capacity : Nat) (x : Exec σ) :
    Traces p (forwarded_all x.self evs) x (Sfizz.run_front api host ports evs capacity x) := by
  unfold Sfizz.run_front
  have b0 : Book x ((x.call (Call.forge_set_buffer capacity)).call Call.forge_sequence_head) :=
    (Book.book_call x (Call.forge_set_buffer capacity) rfl).book_trans
      (Book.book_call _ Call.forge_sequence_head rfl)
  have t0 := Book.book_traces hp b0
  have t1 := Traces.traces_events api host p hp evs
    ((x.call (Call.forge_set_buffer capacity)).call Call.forge_sequence_head)
  have hx : ((x.call (Call.forge_set_buffer capacity)).call Call.forge_sequence_head).self
      = x.self := rfl
  rw [hx] at t1
  have t01 := t0.traces_trans t1
  have b2 := ((((Book.book_check_freewheeling api ports (evs.foldl (Sfizz.run_event api host)
    ((x.call (Call.forge_set_buffer capacity)).call Call.forge_sequence_head))).book_trans
    (Book.book_engine _ (Call.sfizz_set_volume ports.volume_port)
      (fun s => api.sfizz_set_volume s ports.volume_port) rfl)).book_trans
    (Book.book_check_preload_size host ports _)).book_trans
    (Book.book_check_oversampling host ports _)).book_trans (Book.book_check_num_voices host ports _)
  have t := t01.traces_trans (Book.book_traces hp b2)
  simpa using t

theorem run_periodic_idle {σ : Type} (host : Scheduler) (NDEBUG : Bool) (sample_count : Nat)
    (x : Exec σ)
    (h : ¬ wrap_int32 (x.self.sample_counter + wrap_int32 sample_count) > LOG_SAMPLE_COUNT) :
    run_periodic host NDEBUG sample_count x
      = { x with self := { x.self with
            sample_counter := wrap_int32 (x.self.sample_counter + wrap_int32 sample_count) } } := by
  unfold run_periodic
  simp only
  rw [if_neg h]

theorem run_periodic_fire {σ : Type} (host : Scheduler) (NDEBUG : Bool) (sample_count : Nat)
    (x : Exec σ)
    (h : wrap_int32 (x.self.sample_counter + wrap_int32 sample_count) > LOG_SAMPLE_COUNT) :
    (run_periodic host NDEBUG sample_count x).self
        = { x.self with
            changing_state := (run_periodic host NDEBUG sample_count x).self.changing_state
            sample_counter := wrap_int32
              (wrap_int32 (x.self.sample_counter + wrap_int32 sample_count) - LOG_SAMPLE_COUNT) }
      ∧ ∃ rest, (run_periodic host NDEBUG sample_count x).calls
          = x.calls ++ Call.schedule_work 8 (check_request x.self) :: rest
        ∧ ∀ c ∈ rest, c = Call.lv2_log_error
            ∨ (NDEBUG = false ∧ c = Call.schedule_work 8 (status_request x.self)) := by
  unfold run_periodic
  simp only
  rw [if_pos h]
  simp only [schedule_work, Exec.set_changing_state, Exec.call, lv2_atom_total_size,
    sizeof_LV2_Atom]
  cases NDEBUG
  · simp only [Bool.false_eq_true, ↓reduceIte]
    split_ifs <;>
      exact ⟨rfl, _, by simp only [List.append_assoc, List.singleton_append, List.cons_append,
        List.nil_append]; rfl, by simp [check_request, status_request]⟩
  · simp only [↓reduceIte]
    split_ifs <;>
      exact ⟨rfl, _, by simp only [List.append_assoc, List.singleton_append, List.cons_append,
        List.nil_append]; rfl, by simp⟩

theorem run_periodic_filter {σ : Type} (host : Scheduler) (NDEBUG : Bool) (sample_count : Nat)
    (p : Call → Bool) (hp : ∀ c : Call, c.bookkeeping = true → p c = false)
    (hs : ∀ (size : Nat) (data : LV2_Atom), p (Call.schedule_work size data) = false)
    (x : Exec σ) :
    (run_periodic host NDEBUG sample_count x).self
        = { x.self with
            changing_state := (run_periodic host NDEBUG sample_count x).self.changing_state
            sample_counter := (run_periodic host NDEBUG sample_count x).self.sample_counter }
      ∧ (run_periodic host NDEBUG sample_count x).calls.filter p = x.calls.filter p := by
  by_cases h : wrap_int32 (x.self.sample_counter + wrap_int32 sample_count) > LOG_SAMPLE_COUNT
  · obtain ⟨h1, rest, h2, h3⟩ := run_periodic_fire host NDEBUG sample_count x h
    refine ⟨?_, ?_⟩
    · rw [h1]
    · have hr : rest.filter p = [] := by
        rw [List.filter_eq_nil_iff]
        intro c hc
        rcases h3 c hc with rfl | ⟨_, rfl⟩
        · rw [hp Call.lv2_log_error rfl]; simp
        · rw [hs]; simp
      rw [h2, List.filter_append, List.filter_cons, hs, hr]
      simp
  · rw [run_periodic_idle host NDEBUG sample_count x h]
    exact ⟨rfl, rfl⟩

theorem run_filter {σ : Type} (api : SfizzAPI σ) (host : Scheduler) (NDEBUG : Bool)
    (ports : Ports) (evs : List LV2_Atom_Event) (capacity sample_count : Nat)
    (p : Call → Bool) (hp : ∀ c : Call, c.bookkeeping = true → p c = false)
    (hs : ∀ (size : Nat) (data : LV2_Atom), p (Call.schedule_work size data) = false)
    (x : Exec σ)
    (hcontrol : ports.control_port = some evs) (hnotify : ports.notify_port = some capacity) :
    (run api host NDEBUG ports sample_count x).self
        = { x.self with
            synth := (run api host NDEBUG ports sample_count x).self.synth
            changing_state := (run api host NDEBUG ports sample_count x).self.changing_state
            sample_counter := (run api host NDEBUG ports sample_count x).self.sample_counter }
      ∧ (run api host NDEBUG ports sample_count x).calls.filter p
        = x.calls.filter p ++ (forwarded_all x.self evs).filter p
            ++ [Call.sfizz_render_block 2 (wrap_int32 sample_count)].filter p := by
  rw [run_connected api host NDEBUG ports evs capacity sample_count x hcontrol hnotify]
  obtain ⟨f1, f2⟩ := Traces.traces_run_front api host ports p hp evs capacity x
  obtain ⟨g1, g2⟩ := run_periodic_filter host NDEBUG sample_count p hp hs
    (run_front api host ports evs capacity x)
  refine ⟨?_, ?_⟩
  · simp only [Exec.engine]
    rw [g1, f1]
  · simp only [Exec.engine]
    rw [List.filter_append, g2, f2]

theorem midi_call_forward (ev : LV2_Atom_Event) (c : Call) (h : midi_call ev = some c) :
    c.is_midi_forward = true := by
  unfold midi_call at h
  simp only at h
  split_ifs at h <;> simp only [Option.some.injEq] at h <;> subst h <;> rfl

theorem forwarded_all_forward {σ : Type} (self : sfizz_plugin_t σ) (evs : List LV2_Atom_Event) :
    ∀ c ∈ forwarded_all self evs, c.is_midi_forward = true := by
  induction evs with
  | nil => intro c hc; simp [forwarded_all] at hc
  | cons ev rest ih =>
    intro c hc
    simp only [forwarded_all, List.mem_append] at hc
    rcases hc with h | h
    · unfold forwarded at h
      split_ifs at h
      · simp at h
      · cases hm : midi_call ev with
        | none => simp [hm] at h
        | some d =>
          simp only [hm, Option.toList, List.mem_singleton] at h
          subst h
          exact midi_call_forward ev c hm
      · simp at h
    · exact ih c h

theorem forwarded_all_filter_none {σ : Type} (self : sfizz_plugin_t σ)
    (evs : List LV2_Atom_Event) (p : Call → Bool)
    (hp : ∀ c : Call, c.is_midi_forward = true → p c = false) :
    (forwarded_all self evs).filter p = [] := by
  rw [List.filter_eq_nil_iff]
  intro c hc
  rw [hp c (forwarded_all_forward self evs c hc)]
  simp

/-- C14: for every `run` call (any ports, events, scheduler and build), the instance
after the call differs from the instance before at most in the engine state,
`changing_state` and `sample_counter`, so `sfz_file_path`, `num_voices`,
`preload_size`, `oversampling`, `sample_rate` and `max_block_size` are kept; and
no call made by `run` is `sfizz_load_file`, `sfizz_set_num_voices`,
`sfizz_set_preload_size` or `sfizz_set_oversampling_factor`. -/
theorem run_keeps_configuration {σ : Type} (api : SfizzAPI σ) (host : Scheduler)
    (NDEBUG : Bool) (ports : Ports) (sample_count : Nat) (self : sfizz_plugin_t σ) :
    (run api host NDEBUG ports sample_count { self := self, calls := [] }).self
        = { self with
            synth := (run api host NDEBUG ports sample_count
              { self := self, calls := [] }).self.synth
            changing_state := (run api host NDEBUG ports sample_count
              { self := self, calls := [] }).self.changing_state
            sample_counter := (run api host NDEBUG ports sample_count
              { self := self, calls := [] }).self.sample_counter }
      ∧ ∀ c ∈ (run api host NDEBUG ports sample_count { self := self, calls := [] }).calls,
          c.is_mutator = false := by
  cases hc : ports.control_port with
  | none =>
    rw [run_unconnected api host NDEBUG ports sample_count _ (Or.inl hc)]
    exact ⟨rfl, by simp⟩
  | some evs =>
    cases hn : ports.notify_port with
    | none =>
      rw [run_unconnected api host NDEBUG ports sample_count _ (Or.inr hn)]
      exact ⟨rfl, by simp⟩
    | some capacity =>
      obtain ⟨h1, h2⟩ := run_filter api host NDEBUG ports evs capacity sample_count
        Call.is_mutator (by intro c; cases c <;> simp [Call.bookkeeping, Call.is_mutator])
        (fun _ _ => rfl) { self := self, calls := [] } hc hn
      refine ⟨h1, ?_⟩
      have hf : (forwarded_all self evs).filter Call.is_mutator = [] :=
        forwarded_all_filter_none self evs Call.is_mutator
          (by intro c; cases c <;> simp [Call.is_midi_forward, Call.is_mutator])
      simp only [List.filter_nil, List.nil_append, hf] at h2
      have h3 : (run api host NDEBUG ports sample_count
          { self := self, calls := [] }).calls.filter Call.is_mutator = [] := by
        rw [h2]; rfl
      intro c hmem
      have := (List.filter_eq_nil_iff.mp h3) c hmem
      simpa using this

theorem check_submission_bookkeeping (request : LV2_Atom) (hr : request.body = []) (c : Call)
    (h : c.bookkeeping = true) : Call.is_check_submission request c = false := by
  unfold Call.is_check_submission
  rw [decide_eq_false_iff_not]
  intro hc
  subst hc
  simp [Call.bookkeeping, hr] at h

theorem check_submission_forward (request : LV2_Atom) (c : Call)
    (h : c.is_midi_forward = true) : Call.is_check_submission request c = false := by
  unfold Call.is_check_submission
  rw [decide_eq_false_iff_not]
  intro hc
  subst hc
  simp [Call.is_midi_forward] at h

theorem run_counter_step {σ : Type} (api : SfizzAPI σ) (host : Scheduler) (NDEBUG : Bool)
    (ports : Ports) (evs : List LV2_Atom_Event) (capacity sample_count : Nat) (x : Exec σ)
    (hcontrol : ports.control_port = some evs) (hnotify : ports.notify_port = some capacity)
    (hbuild : NDEBUG = true
      ∨ x.self.sfizz_log_status_uri ≠ x.self.sfizz_check_modification_uri)
    (hsize : sample_count ≤ 48000)
    (hlow : 0 ≤ x.self.sample_counter) (hhigh : x.self.sample_counter ≤ 48000) :
    (run api host NDEBUG ports sample_count x).self
        = { x.self with
            synth := (run api host NDEBUG ports sample_count x).self.synth
            changing_state := (run api host NDEBUG ports sample_count x).self.changing_state
            sample_counter := (run api host NDEBUG ports sample_count x).self.sample_counter }
      ∧ ((x.self.sample_counter + sample_count ≤ 48000
          ∧ (run api host NDEBUG ports sample_count x).self.sample_counter
              = x.self.sample_counter + sample_count
          ∧ check_submissions x.self (run api host NDEBUG ports sample_count x).calls
              = check_submissions x.self x.calls)
        ∨ (48000 < x.self.sample_counter + sample_count
          ∧ (run api host NDEBUG ports sample_count x).self.sample_counter
              = x.self.sample_counter + sample_count - 48000
          ∧ check_submissions x.self (run api host NDEBUG ports sample_count x).calls
              = check_submissions x.self x.calls + 1)) := by
  have hp := check_submission_bookkeeping (check_request x.self) rfl
  rw [run_connected api host NDEBUG ports evs capacity sample_count x hcontrol hnotify]
  obtain ⟨f1, f2⟩ := Traces.traces_run_front api host ports
    (Call.is_check_submission (check_request x.self)) hp evs capacity x
  rw [forwarded_all_filter_none x.self evs _ (check_submission_forward _), List.append_nil] at f2
  have fc : (run_front api host ports evs capacity x).self.sample_counter
      = x.self.sample_counter := by rw [f1]
  have fr : check_request (run_front api host ports evs capacity x).self
      = check_request x.self := by rw [f1]; rfl
  have fs : status_request (run_front api host ports evs capacity x).self
      = status_request x.self := by rw [f1]; rfl
  have hw : wrap_int32 (x.self.sample_counter + wrap_int32 sample_count)
      = x.self.sample_counter + sample_count := by
    unfold wrap_int32; omega
  by_cases h : 48000 < x.self.sample_counter + sample_count
  · have hfire : wrap_int32 ((run_front api host ports evs capacity x).self.sample_counter
        + wrap_int32 sample_count) > LOG_SAMPLE_COUNT := by
      rw [fc, hw]; exact h
    obtain ⟨g1, rest, g2, g3⟩ := run_periodic_fire host NDEBUG sample_count _ hfire
    rw [fc, hw] at g1
    rw [fr] at g2
    rw [fs] at g3
    refine ⟨?_, Or.inr ⟨h, ?_, ?_⟩⟩
    · simp only [Exec.engine]
      rw [g1, f1]
    · simp only [Exec.engine]
      rw [g1]
      show wrap_int32 (x.self.sample_counter + sample_count - LOG_SAMPLE_COUNT) = _
      unfold wrap_int32 LOG_SAMPLE_COUNT
      omega
    · have hrest : rest.filter (Call.is_check_submission (check_request x.self)) = [] := by
        rw [List.filter_eq_nil_iff]
        intro c hc
        rcases g3 c hc with rfl | ⟨hN, rfl⟩
        · simp [Call.is_check_submission]
        · rcases hbuild with hb | hb
          · rw [hb] at hN; exact absurd hN (by decide)
          · simp [Call.is_check_submission, check_request, status_request, hb]
      simp only [Exec.engine, check_submissions]
      rw [g2]
      simp only [List.filter_append, List.filter_cons, List.filter_nil, f2, hrest]
      simp [Call.is_check_submission]
  · have hidle : ¬ wrap_int32 ((run_front api host ports evs capacity x).self.sample_counter
        + wrap_int32 sample_count) > LOG_SAMPLE_COUNT := by
      rw [fc, hw]; exact h
    rw [run_periodic_idle host NDEBUG sample_count _ hidle]
    refine ⟨?_, Or.inl ⟨by omega, ?_, ?_⟩⟩
    · simp only [Exec.engine]
      rw [f1]
    · simp only [Exec.engine]
      rw [fc, hw]
    · simp only [Exec.engine, check_submissions]
      simp only [List.filter_append, List.filter_cons, List.filter_nil, f2]
      simp [Call.is_check_submission]

theorem run_all_invariant {σ : Type} (api : SfizzAPI σ) (NDEBUG : Bool)
    (self : sfizz_plugin_t σ) (args : List RunArgs) :
    ∀ (x : Exec σ) (total : Nat),
      x.self = { self with synth := x.self.synth, changing_state := x.self.changing_state,
                           sample_counter := x.self.sample_counter } →
      (NDEBUG = true ∨ self.sfizz_log_status_uri ≠ self.sfizz_check_modification_uri) →
      (∀ a ∈ args, (∃ evs, a.ports.control_port = some evs)
        ∧ (∃ capacity, a.ports.notify_port = some capacity) ∧ a.sample_count ≤ 48000) →
      0 ≤ x.self.sample_counter → x.self.sample_counter ≤ 48000 →
      (total : Int) = 48000 * (check_submissions self x.calls : Int) + x.self.sample_counter →
      (0 < check_submissions self x.calls → 1 ≤ x.self.sample_counter) →
      0 ≤ (run_all api NDEBUG args x).self.sample_counter
        ∧ (run_all api NDEBUG args x).self.sample_counter ≤ 48000
        ∧ ((total + total_samples args : Nat) : Int)
            = 48000 * (check_submissions self (run_all api NDEBUG args x).calls : Int)
              + (run_all api NDEBUG args x).self.sample_counter
        ∧ (0 < check_submissions self (run_all api NDEBUG args x).calls →
            1 ≤ (run_all api NDEBUG args x).self.sample_counter) := by
  induction args with
  | nil =>
    intro x total _ _ _ hlow hhigh htotal hpos
    simp only [run_all, total_samples, Nat.add_zero]
    exact ⟨hlow, hhigh, htotal, hpos⟩
  | cons a rest ih =>
    intro x total hself hbuild hargs hlow hhigh htotal hpos
    obtain ⟨⟨evs, hc⟩, ⟨capacity, hn⟩, hsize⟩ := hargs a (List.mem_cons_self _ _)
    have hreq : check_request x.self = check_request self := by rw [hself]; rfl
    have hk : ∀ calls, check_submissions x.self calls = check_submissions self calls := by
      intro calls; unfold check_submissions; rw [hreq]
    have hbuild2 : NDEBUG = true
        ∨ x.self.sfizz_log_status_uri ≠ x.self.sfizz_check_modification_uri := by
      rcases hbuild with h | h
      · exact Or.inl h
      · right; rw [hself]; exact h
    obtain ⟨s1, s2⟩ := run_counter_step api a.host NDEBUG a.ports evs capacity a.sample_count x
      hc hn hbuild2 hsize hlow hhigh
    simp only [hk] at s2
    have hself2 : (run api a.host NDEBUG a.ports a.sample_count x).self
        = { self with
            synth := (run api a.host NDEBUG a.ports a.sample_count x).self.synth
            changing_state := (run api a.host NDEBUG a.ports a.sample_count x).self.changing_state
            sample_counter :=
              (run api a.host NDEBUG a.ports a.sample_count x).self.sample_counter } := by
      rw [s1, hself]
    have hrest : ∀ b ∈ rest, (∃ evs, b.ports.control_port = some evs)
        ∧ (∃ capacity, b.ports.notify_port = some capacity) ∧ b.sample_count ≤ 48000 :=
      fun b hb => hargs b (List.mem_cons_of_mem _ hb)
    have key := ih (run api a.host NDEBUG a.ports a.sample_count x) (total + a.sample_count)
      hself2 hbuild hrest
    simp only [run_all, total_samples]
    rw [← Nat.add_assoc]
    rcases s2 with ⟨c1, c2, c3⟩ | ⟨c1, c2, c3⟩
    · apply key
      · rw [c2]; omega
      · rw [c2]; omega
      · rw [c2, c3]; push_cast; omega
      · rw [c2, c3]; intro h; have := hpos h; omega
    · apply key
      · rw [c2]; omega
      · rw [c2]; omega
      · rw [c2, c3]; push_cast; omega
      · rw [c2]; intro _; omega

/-- C13: for every sequence of `run` calls with both atom ports connected, starting
from `sample_counter == 0`, with every block size at most `LOG_SAMPLE_COUNT =
48000` (and, in a debug build, distinct log-status and check-modification
URIDs): after the sequence, and so after each call, `0 <= sample_counter <=
48000`, the total number of samples is `48000 * submissions + sample_counter`,
and the number of check-modification submissions is `(total - 1) / 48000`, the
number of `k >= 1` with `total > 48000 * k`: the `k`-th submission happens in
the call in which the cumulative count first exceeds `48000 * k`. -/
theorem periodic_check_period {σ : Type} (api : SfizzAPI σ) (NDEBUG : Bool)
    (self : sfizz_plugin_t σ) (args : List RunArgs)
    (hstart : self.sample_counter = 0)
    (hbuild : NDEBUG = true
      ∨ self.sfizz_log_status_uri ≠ self.sfizz_check_modification_uri)
    (hargs : ∀ a ∈ args, (∃ evs, a.ports.control_port = some evs)
      ∧ (∃ capacity, a.ports.notify_port = some capacity) ∧ a.sample_count ≤ 48000) :
    0 ≤ (run_all api NDEBUG args { self := self, calls := [] }).self.sample_counter
      ∧ (run_all api NDEBUG args { self := self, calls := [] }).self.sample_counter ≤ 48000
      ∧ (total_samples args : Int)
          = 48000 * (check_submissions self
              (run_all api NDEBUG args { self := self, calls := [] }).calls : Int)
            + (run_all api NDEBUG args { self := self, calls := [] }).self.sample_counter
      ∧ check_submissions self (run_all api NDEBUG args { self := self, calls := [] }).calls
          = (total_samples args - 1) / 48000 := by
  have h := run_all_invariant api NDEBUG self args { self := self, calls := [] } 0 rfl hbuild
    hargs (by simp only [hstart]; decide) (by simp only [hstart]; decide)
    (by simp [check_submissions, hstart]) (by simp [check_submissions])
  rw [Nat.zero_add] at h
  obtain ⟨h1, h2, h3, h4⟩ := h
  refine ⟨h1, h2, h3, ?_⟩
  generalize check_submissions self
    (run_all api NDEBUG args { self := self, calls := [] }).calls = k at h3 h4
  generalize (run_all api NDEBUG args { self := self, calls := [] }).self.sample_counter = c
    at h1 h2 h3 h4
  generalize total_samples args = t at h3
  by_cases hk : 0 < k
  · have := h4 hk
    omega
  · omega

/-- C13 (witness): seven blocks of 8192 samples (57344 in total) give one submission. -/
theorem periodic_check_period_witness :
    check_submissions samplePlugin
        (run_all sampleAPI true sevenBlocks { self := samplePlugin, calls := [] }).calls
      = (total_samples sevenBlocks - 1) / 48000 :=
  (periodic_check_period sampleAPI true samplePlugin sevenBlocks rfl (Or.inl rfl)
    (by
      intro a ha
      rw [List.eq_of_mem_replicate ha]
      exact ⟨⟨[], rfl⟩, ⟨1024, rfl⟩, by decide⟩)).2.2.2

/-- C18 (amended): for every `run` call with both atom ports connected, the engine
event calls and render calls made by `run`, in call order, are the images of the
MIDI events of the control sequence in sequence order (note-on, note-off,
controller and bender messages mapped as in `midi_call`, each with its own frame
time converted to `int`; other messages and non-MIDI atoms give nothing),
followed by the single `sfizz_render_block` call. -/
theorem run_forwards_events_in_order {σ : Type} (api : SfizzAPI σ) (host : Scheduler)
    (NDEBUG : Bool) (ports : Ports) (evs : List LV2_Atom_Event) (capacity sample_count : Nat)
    (self : sfizz_plugin_t σ)
    (hcontrol : ports.control_port = some evs) (hnotify : ports.notify_port = some capacity) :
    (run api host NDEBUG ports sample_count { self := self, calls := [] }).calls.filter
        Call.is_engine_event
      = forwarded_all self evs ++ [Call.sfizz_render_block 2 (wrap_int32 sample_count)] := by
  obtain ⟨_, h2⟩ := run_filter api host NDEBUG ports evs capacity sample_count
    Call.is_engine_event (by intro c; cases c <;> simp [Call.bookkeeping, Call.is_engine_event])
    (fun _ _ => rfl) { self := self, calls := [] } hcontrol hnotify
  have hf : (forwarded_all self evs).filter Call.is_engine_event = forwarded_all self evs := by
    rw [List.filter_eq_self]
    intro c hc
    have := forwarded_all_forward self evs c hc
    revert this
    cases c <;> simp [Call.is_midi_forward, Call.is_engine_event]
  rw [h2, hf]
  rfl

/-- C18 (witness): one note-on at frame 5 on the sample host. -/
theorem run_forwards_events_in_order_witness :
    (run sampleAPI acceptAll true notePorts 256
        { self := samplePlugin, calls := [] }).calls.filter Call.is_engine_event
      = [Call.sfizz_send_note_on 5 60 100, Call.sfizz_render_block 2 256] :=
  run_forwards_events_in_order sampleAPI acceptAll true notePorts [noteOnEvent] 1024 256
    samplePlugin rfl rfl

/-- C18 (counterexample): with the notify port not connected and a note-on MIDI
event in the control sequence, `run` returns at its null-port guard: it makes no
call at all, neither `sfizz_send_note_on` nor `sfizz_render_block`. -/
theorem run_unconnected_forwards_nothing :
    mutedPorts.control_port = some [noteOnEvent]
      ∧ noteOnEvent.body.type = samplePlugin.midi_event_uri
      ∧ forwarded_all samplePlugin [noteOnEvent] = [Call.sfizz_send_note_on 5 60 100]
      ∧ (run sampleAPI acceptAll true mutedPorts 256
          { self := samplePlugin, calls := [] }).calls = [] := by
  decide

/-- C19 (amended): for every `run` call with both atom ports connected and every
`sample_count`, `run` calls `sfizz_render_block` exactly once, with 2 channels
and `(int)sample_count` frames, whatever the events, the port values, the guard,
the build and the scheduler's answers. -/
theorem run_renders_once {σ : Type} (api : SfizzAPI σ) (host : Scheduler)
    (NDEBUG : Bool) (ports : Ports) (evs : List LV2_Atom_Event) (capacity sample_count : Nat)
    (self : sfizz_plugin_t σ)
    (hcontrol : ports.control_port = some evs) (hnotify : ports.notify_port = some capacity) :
    (run api host NDEBUG ports sample_count { self := self, calls := [] }).calls.filter
        Call.is_render_block
      = [Call.sfizz_render_block 2 (wrap_int32 sample_count)] := by
  obtain ⟨_, h2⟩ := run_filter api host NDEBUG ports evs capacity sample_count
    Call.is_render_block (by intro c; cases c <;> simp [Call.bookkeeping, Call.is_render_block])
    (fun _ _ => rfl) { self := self, calls := [] } hcontrol hnotify
  rw [h2, forwarded_all_filter_none self evs Call.is_render_block
    (by intro c; cases c <;> simp [Call.is_midi_forward, Call.is_render_block])]
  rfl

/-- C19 (witness): a debug build with a full scheduler queue and the guard set. -/
theorem run_renders_once_witness :
    (run sampleAPI rejectAll false notePorts 256
        { self := { samplePlugin with changing_state := true }, calls := [] }).calls.filter
          Call.is_render_block
      = [Call.sfizz_render_block 2 256] :=
  run_renders_once sampleAPI rejectAll false notePorts [noteOnEvent] 1024 256
    { samplePlugin with changing_state := true } rfl rfl

/-- C19 (counterexample): with the control port not connected, `run` returns at its
null-port guard without calling `sfizz_render_block`. -/
theorem run_unconnected_renders_nothing :
    (samplePorts 64 1 8192).notify_port = some 1024
      ∧ ({ samplePorts 64 1 8192 with control_port := none } : Ports).control_port = none
      ∧ (run sampleAPI acceptAll true { samplePorts 64 1 8192 with control_port := none } 256
          { self := samplePlugin, calls := [] }).calls.filter Call.is_render_block = [] := by
  decide

/-- C11 (failing input): the sample instance has `/a.sfz` loaded and no request in
flight; a patch Set of the sfz-file property arrives whose Path value is
`/a.sfz`.  The handler compares nothing: it submits a load request for the same
path and sets `changing_state`. -/
theorem same_path_is_resubmitted :
    loadedPlugin.changing_state = false
      ∧ c_string [47, 97, 46, 115, 102, 122, 0] = loadedPlugin.sfz_file_path
      ∧ (sfizz_lv2_handle_atom_object acceptAll { self := loadedPlugin, calls := [] }
          sampleFileSet).calls = [Call.schedule_work 16 sampleFileRequest]
      ∧ c_string sampleFileRequest.body = loadedPlugin.sfz_file_path
      ∧ (sfizz_lv2_handle_atom_object acceptAll { self := loadedPlugin, calls := [] }
          sampleFileSet).self.changing_state = true := by
  decide

/-- C12 (failing input): six blocks of 8192 samples on the loaded instance with an
accepting scheduler.  The periodic block of the sixth `run` submits the
check-modification request and leaves `changing_state` true; no response has
been applied and the engine reports that the file should be reloaded, yet
`work`, which tests `!changing_state` first, only responds: it calls neither
`sfizz_should_reload_file` nor `sfizz_load_file`.  With the guard clear the same
request does reload. -/
theorem reload_never_triggered :
    reloadDue.requests = [(8, sampleCheckRequest)]
      ∧ reloadDue.responses = []
      ∧ reloadDue.self.changing_state = true
      ∧ sampleAPI.sfizz_should_reload_file reloadDue.self.synth = true
      ∧ (work sampleAPI { self := reloadDue.self, calls := [] } 8
          (some sampleCheckRequest)).2.calls = [Call.respond 8 sampleCheckRequest]
      ∧ (work sampleAPI { self := { reloadDue.self with changing_state := false }, calls := [] } 8
          (some sampleCheckRequest)).2.calls
        = [Call.sfizz_should_reload_file, Call.lv2_log_note,
           Call.sfizz_load_file [47, 97, 46, 115, 102, 122], Call.lv2_log_note,
           Call.sfizz_get_unknown_opcodes, Call.lv2_log_note, Call.lv2_log_note,
           Call.lv2_log_note, Call.respond 8 sampleCheckRequest] := by
  decide

/-- C16 (failing input): with the polyphony port at 300,
`sfizz_lv2_check_num_voices` submits a request with payload 300 and `work`
passes 300 to `sfizz_set_num_voices`, although 300 exceeds `MAX_VOICES`;
`restore`, given the same stored value, makes no call at all. -/
theorem out_of_range_voices_reach_engine :
    (sfizz_lv2_check_num_voices acceptAll (samplePorts 300 1 8192)
        { self := samplePlugin, calls := [] }).calls = [Call.schedule_work 12 (atom_int 18 300)]
      ∧ (work sampleAPI { self := samplePlugin, calls := [] } 12 (some (atom_int 18 300))).2.calls
        = [Call.sfizz_set_num_voices 300, Call.sfizz_get_num_voices,
           Call.respond 12 (atom_int 18 300)]
      ∧ ¬ (300 ≤ MAX_VOICES)
      ∧ (restore sampleAPI (fun key => if key = 18 then some (le32 300) else none)
          { self := samplePlugin, calls := [] }).calls = [] := by
  decide

/-- C17: for data bytes `lsb`, `msb` in `0..127`, `PITCH_BUILD_AND_CENTER(lsb, msb)`
equals `msb * 128 + lsb - 8192`, lies in `-8192..8191`, is 0 exactly for `(0,
64)`, and is injective on pairs of 7-bit bytes. -/
theorem pitch_bend_decoding (lsb msb : Nat) (hl : lsb < 128) (hm : msb < 128) :
    PITCH_BUILD_AND_CENTER lsb msb = (msb : Int) * 128 + lsb - 8192
      ∧ -8192 ≤ PITCH_BUILD_AND_CENTER lsb msb
      ∧ PITCH_BUILD_AND_CENTER lsb msb ≤ 8191
      ∧ (PITCH_BUILD_AND_CENTER lsb msb = 0 ↔ lsb = 0 ∧ msb = 64)
      ∧ ∀ lsb2 msb2 : Nat, lsb2 < 128 → msb2 < 128 →
          PITCH_BUILD_AND_CENTER lsb msb = PITCH_BUILD_AND_CENTER lsb2 msb2 →
          lsb = lsb2 ∧ msb = msb2 := by
  have key : ∀ a b : Nat, a < 128 → b < 128 →
      PITCH_BUILD_AND_CENTER a b = (b : Int) * 128 + a - 8192 := by
    intro a b ha hb
    unfold PITCH_BUILD_AND_CENTER wrap_int32
    omega
  refine ⟨key lsb msb hl hm, ?_, ?_, ?_, ?_⟩
  · rw [key lsb msb hl hm]; omega
  · rw [key lsb msb hl hm]; omega
  · rw [key lsb msb hl hm]; omega
  · intro lsb2 msb2 h1 h2 h
    rw [key lsb msb hl hm, key lsb2 msb2 h1 h2] at h
    omega

/-- C17 (witness): the centre position `(0, 64)`. -/
theorem pitch_bend_decoding_witness :
    PITCH_BUILD_AND_CENTER 0 64 = ((64 : Nat) : Int) * 128 + ((0 : Nat) : Int) - 8192 :=
  (pitch_bend_decoding 0 64 (by decide) (by decide)).1

theorem c_string_terminated (path : List Nat) (h : 0 ∉ path) : c_string (path ++ [0]) = path := by
  unfold c_string
  induction path with
  | nil => rfl
  | cons c rest ih =>
    have hc : c ≠ 0 := fun e => h (by simp [e])
    have hr : 0 ∉ rest := fun e => h (List.mem_cons_of_mem _ e)
    simp only [List.cons_append, List.takeWhile_cons, bne_iff_ne, ne_eq, hc, not_false_eq_true,
      if_true, ih hr]

theorem read_int32_le32 (v : Int) (hlow : -2147483648 ≤ v) (hhigh : v < 2147483648) :
    read_int32 (le32 (to_uint32 v)) = v := by
  unfold read_int32
  rw [read_uint32_le32]
  unfold wrap_int32 to_uint32
  omega

theorem restore_file_matching {σ : Type} (api : SfizzAPI σ) (retrieve : Retrieve) (x : Exec σ)
    (value : List Nat) (hv : retrieve x.self.sfizz_sfz_file_uri = some value)
    (hp : c_string value = x.self.sfz_file_path) :
    (restore_file api retrieve x).self
        = { x.self with synth := (restore_file api retrieve x).self.synth }
      ∧ (restore_file api retrieve x).calls.filter Call.is_setter
        = x.calls.filter Call.is_setter := by
  unfold restore_file
  simp only [hv, hp]
  by_cases hl : (load_file api (x.call Call.lv2_log_note) x.self.sfz_file_path).1 = true
  · rw [if_pos hl]
    refine ⟨?_, ?_⟩
    · rw [update_file_info_self]; rfl
    · unfold sfizz_lv2_update_file_info
      simp only [Exec.call, load_file]
      cases api.sfizz_get_unknown_opcodes
          (api.sfizz_load_file x.self.synth x.self.sfz_file_path).2 <;>
        simp [List.filter_append, Call.is_setter]
  · rw [if_neg hl]
    exact ⟨rfl, by simp [load_file, Exec.call, List.filter_append, Call.is_setter]⟩

theorem restore_num_voices_matching {σ : Type} (api : SfizzAPI σ) (retrieve : Retrieve)
    (x : Exec σ) (value : List Nat) (hv : retrieve x.self.sfizz_num_voices_uri = some value)
    (hp : read_int32 value = x.self.num_voices) :
    restore_num_voices api retrieve x = x := by
  unfold restore_num_voices
  simp only [hv, hp]
  rw [if_neg (by simp)]

theorem restore_preload_size_matching {σ : Type} (api : SfizzAPI σ) (retrieve : Retrieve)
    (x : Exec σ) (value : List Nat) (hv : retrieve x.self.sfizz_preload_size_uri = some value)
    (hp : read_uint32 value = x.self.preload_size) :
    restore_preload_size api retrieve x = x := by
  unfold restore_preload_size
  simp only [hv, hp]
  rw [if_neg (by simp)]

theorem restore_oversampling_matching {σ : Type} (api : SfizzAPI σ) (retrieve : Retrieve)
    (x : Exec σ) (value : List Nat) (hv : retrieve x.self.sfizz_oversampling_uri = some value)
    (hp : read_int32 value = x.self.oversampling) :
    restore_oversampling api retrieve x = x := by
  unfold restore_oversampling
  simp only [hv, hp]
  rw [if_neg (by simp)]

theorem restore_matching {σ : Type} (api : SfizzAPI σ) (retrieve : Retrieve) (x : Exec σ)
    (vf vn vp vo : List Nat)
    (hf : retrieve x.self.sfizz_sfz_file_uri = some vf)
    (hfv : c_string vf = x.self.sfz_file_path)
    (hn : retrieve x.self.sfizz_num_voices_uri = some vn)
    (hnv : read_int32 vn = x.self.num_voices)
    (hp : retrieve x.self.sfizz_preload_size_uri = some vp)
    (hpv : read_uint32 vp = x.self.preload_size)
    (ho : retrieve x.self.sfizz_oversampling_uri = some vo)
    (hov : read_int32 vo = x.self.oversampling) :
    (restore api retrieve x).self = { x.self with synth := (restore api retrieve x).self.synth }
      ∧ (restore api retrieve x).calls.filter Call.is_setter = x.calls.filter Call.is_setter := by
  obtain ⟨f1, f2⟩ := restore_file_matching api retrieve x vf hf hfv
  unfold restore
  have e1 : restore_num_voices api retrieve (restore_file api retrieve x)
      = restore_file api retrieve x :=
    restore_num_voices_matching api retrieve _ vn (by rw [f1]; exact hn) (by rw [f1]; exact hnv)
  have e2 : restore_preload_size api retrieve (restore_file api retrieve x)
      = restore_file api retrieve x :=
    restore_preload_size_matching api retrieve _ vp (by rw [f1]; exact hp)
      (by rw [f1]; exact hpv)
  have e3 : restore_oversampling api retrieve (restore_file api retrieve x)
      = restore_file api retrieve x :=
    restore_oversampling_matching api retrieve _ vo (by rw [f1]; exact ho)
      (by rw [f1]; exact hov)
  rw [e1, e2, e3]
  exact ⟨f1, f2⟩

theorem stored_save {σ : Type} (self : sfizz_plugin_t σ)
    (hkeys : [self.sfizz_sfz_file_uri, self.sfizz_num_voices_uri, self.sfizz_preload_size_uri,
      self.sfizz_oversampling_uri].Nodup) :
    stored (save { self := self, calls := [] }).calls self.sfizz_sfz_file_uri
        = some (self.sfz_file_path ++ [0])
      ∧ stored (save { self := self, calls := [] }).calls self.sfizz_num_voices_uri
        = some (le32 (to_uint32 self.num_voices))
      ∧ stored (save { self := self, calls := [] }).calls self.sfizz_preload_size_uri
        = some (le32 self.preload_size)
      ∧ stored (save { self := self, calls := [] }).calls self.sfizz_oversampling_uri
        = some (le32 (to_uint32 self.oversampling)) := by
  simp only [List.nodup_cons, List.mem_cons, List.mem_singleton, not_or, List.not_mem_nil,
    not_false_eq_true, List.nodup_nil, and_true] at hkeys
  obtain ⟨⟨h12, h13, h14⟩, ⟨h23, h24⟩, h34⟩ := hkeys
  simp only [save, Exec.call, List.nil_append, List.cons_append, stored]
  refine ⟨?_, ?_, ?_, ?_⟩
  · simp
  · simp [Ne.symm h12]
  · simp [Ne.symm h13, Ne.symm h23]
  · simp [Ne.symm h14, Ne.symm h24, Ne.symm h34]

/-- C15: for an instance whose four state keys are pairwise distinct and whose
fields are well-formed C values (a path without zero byte, 32-bit numbers), when
`restore` retrieves exactly what `save` stored from the current instance: after
`restore` the instance differs from the one before `save` at most in the engine
state, so `sfz_file_path`, `num_voices`, `preload_size` and `oversampling` are
equal to their saved values; `restore` calls none of `sfizz_set_num_voices`,
`sfizz_set_preload_size`, `sfizz_set_oversampling_factor`; and applying
`restore` a second time with the same store gives the same configuration.  This
holds whether or not `sfizz_load_file` succeeds, in particular when it does. -/
theorem save_restore_round_trip {σ : Type} (api : SfizzAPI σ) (self : sfizz_plugin_t σ)
    (hkeys : [self.sfizz_sfz_file_uri, self.sfizz_num_voices_uri, self.sfizz_preload_size_uri,
      self.sfizz_oversampling_uri].Nodup)
    (hpath : 0 ∉ self.sfz_file_path)
    (hvoices : -2147483648 ≤ self.num_voices ∧ self.num_voices < 2147483648)
    (hpreload : self.preload_size < 4294967296)
    (hover : -2147483648 ≤ self.oversampling ∧ self.oversampling < 2147483648) :
    (restore api (stored (save { self := self, calls := [] }).calls)
        { self := self, calls := [] }).self
        = { self with
            synth := (restore api (stored (save { self := self, calls := [] }).calls)
              { self := self, calls := [] }).self.synth }
      ∧ (∀ c ∈ (restore api (stored (save { self := self, calls := [] }).calls)
          { self := self, calls := [] }).calls, c.is_setter = false)
      ∧ (restore api (stored (save { self := self, calls := [] }).calls)
          (restore api (stored (save { self := self, calls := [] }).calls)
            { self := self, calls := [] })).self
        = { self with
            synth := (restore api (stored (save { self := self, calls := [] }).calls)
              (restore api (stored (save { self := self, calls := [] }).calls)
                { self := self, calls := [] })).self.synth } := by
  obtain ⟨s1, s2, s3, s4⟩ := stored_save self hkeys
  have hf := c_string_terminated self.sfz_file_path hpath
  have hn := read_int32_le32 self.num_voices hvoices.1 hvoices.2
  have hp : read_uint32 (le32 self.preload_size) = self.preload_size := by
    rw [read_uint32_le32]; omega
  have ho := read_int32_le32 self.oversampling hover.1 hover.2
  generalize stored (save { self := self, calls := [] }).calls = retrieve at s1 s2 s3 s4
  obtain ⟨r1, r2⟩ := restore_matching api retrieve { self := self, calls := [] } _ _ _ _
    s1 hf s2 hn s3 hp s4 ho
  have r1b : (restore api retrieve { self := self, calls := [] }).self
      = { self with synth := (restore api retrieve { self := self, calls := [] }).self.synth } :=
    r1
  obtain ⟨q1, _⟩ := restore_matching api retrieve
    (restore api retrieve { self := self, calls := [] }) _ _ _ _
    (by rw [r1b]; exact s1) (by rw [r1b]; exact hf) (by rw [r1b]; exact s2)
    (by rw [r1b]; exact hn) (by rw [r1b]; exact s3) (by rw [r1b]; exact hp)
    (by rw [r1b]; exact s4) (by rw [r1b]; exact ho)
  refine ⟨r1b, ?_, ?_⟩
  · intro c hc
    have h0 : (restore api retrieve { self := self, calls := [] }).calls.filter Call.is_setter
        = [] := by rw [r2]; rfl
    have := (List.filter_eq_nil_iff.mp h0) c hc
    simpa using this
  · rw [q1, r1b]

/-- C15 (witness): save and restore of the loaded sample instance. -/
theorem save_restore_round_trip_witness :
    (restore sampleAPI (stored (save { self := loadedPlugin, calls := [] }).calls)
        { self := loadedPlugin, calls := [] }).self.sfz_file_path = loadedPlugin.sfz_file_path
      ∧ (restore sampleAPI (stored (save { self := loadedPlugin, calls := [] }).calls)
        { self := loadedPlugin, calls := [] }).self.num_voices = loadedPlugin.num_voices :=
  have h := (save_restore_round_trip sampleAPI loadedPlugin (by decide) (by decide)
    (by decide) (by decide) (by decide)).1
  ⟨by rw [h], by rw [h]⟩

/-- C24: for an sfz-file patch Set handled while `changing_state` is false, with `T`
the total size of the value atom: if `T <= 1023` every index written into the
`MAX_PATH_SIZE = 1024` byte buffer (the `T` copied bytes and the terminating
zero at index `T`) is below 1024 and the request scheduled has size `T + 1` and
type `sfizz_sfz_file_uri`; the function does not test `T`: for `T >= 1024` it
schedules the request all the same and the terminating zero is written at index
`T`, outside the buffer. -/
theorem path_buffer_bound {σ : Type} (host : Scheduler) (x : Exec σ) (obj : LV2_Atom_Object)
    (property atom : LV2_Atom)
    (hstate : x.self.changing_state = false)
    (hproperty : lv2_atom_object_get obj x.self.patch_property_uri = some property)
    (htype : property.type = x.self.atom_urid_uri)
    (hkey : read_uint32 property.body = x.self.sfizz_sfz_file_uri)
    (hvalue : lv2_atom_object_get obj x.self.patch_value_uri = some atom) :
    (lv2_atom_total_size atom ≤ 1023 →
      (∀ i ∈ atom_buffer_writes atom, i < MAX_PATH_SIZE)
        ∧ ∃ request : LV2_Atom, request.type = x.self.sfizz_sfz_file_uri
            ∧ (sfizz_lv2_handle_atom_object host x obj).calls
              = x.calls ++ [Call.schedule_work (lv2_atom_total_size atom + 1) request])
    ∧ (1024 ≤ lv2_atom_total_size atom →
      lv2_atom_total_size atom ∈ atom_buffer_writes atom
        ∧ ¬ lv2_atom_total_size atom < MAX_PATH_SIZE
        ∧ ∃ request : LV2_Atom, request.type = x.self.sfizz_sfz_file_uri
            ∧ (sfizz_lv2_handle_atom_object host x obj).calls
              = x.calls ++ [Call.schedule_work
                  ((lv2_atom_total_size atom + 1) % 4294967296) request]) := by
  have hcalls : (sfizz_lv2_handle_atom_object host x obj).calls
      = x.calls ++ [Call.schedule_work ((lv2_atom_total_size atom + 1) % 4294967296)
          { size := atom.size, type := x.self.sfizz_sfz_file_uri,
            body := atom.body.take atom.size ++ [0] }] := by
    unfold sfizz_lv2_handle_atom_object
    simp only [hproperty, htype, hvalue, hkey, hstate, ne_eq, not_true_eq_false, if_false,
      if_true]
    rfl
  constructor
  · intro hT
    refine ⟨?_, ⟨atom.size, x.self.sfizz_sfz_file_uri, atom.body.take atom.size ++ [0]⟩,
      rfl, ?_⟩
    · intro i hi
      unfold atom_buffer_writes at hi
      unfold MAX_PATH_SIZE
      rcases List.mem_append.mp hi with h | h
      · have := List.mem_range.mp h; omega
      · rw [List.mem_singleton] at h; omega
    · rw [hcalls, Nat.mod_eq_of_lt (by omega)]
  · intro hT
    exact ⟨by simp [atom_buffer_writes], by unfold MAX_PATH_SIZE; omega,
      ⟨atom.size, x.self.sfizz_sfz_file_uri, atom.body.take atom.size ++ [0]⟩, rfl, hcalls⟩

/-- C24 (witness): the path `/a.sfz` (total size 15) and a value atom of total size 1024. -/
theorem path_buffer_bound_witness :
    (∀ i ∈ atom_buffer_writes { size := 7, type := 7, body := [47, 97, 46, 115, 102, 122, 0] },
        i < MAX_PATH_SIZE)
      ∧ lv2_atom_total_size longPathAtom ∈ atom_buffer_writes longPathAtom
      ∧ ¬ lv2_atom_total_size longPathAtom < MAX_PATH_SIZE :=
  have h1 := (path_buffer_bound acceptAll { self := samplePlugin, calls := [] } sampleFileSet
    { size := 4, type := 8, body := le32 17 }
    { size := 7, type := 7, body := [47, 97, 46, 115, 102, 122, 0] } rfl rfl rfl rfl rfl).1
    (by decide)
  have h2 := (path_buffer_bound acceptAll { self := samplePlugin, calls := [] }
    (patch_set_object 10 14 15 8 17 longPathAtom)
    { size := 4, type := 8, body := le32 17 } longPathAtom rfl rfl rfl rfl rfl).2 (by decide)
  ⟨h1.1, h2.1, h2.2.1⟩

theorem list_split_trailing (p : Char → Bool) (l : List Char) :
    l = l.take (l.length - ((l.reverse.takeWhile p).reverse).length)
        ++ (l.reverse.takeWhile p).reverse
      ∧ (∀ c ∈ (l.reverse.takeWhile p).reverse, p c = true)
      ∧ ∀ c, (l.take (l.length - ((l.reverse.takeWhile p).reverse).length)).getLast? = some c →
          p c = false := by
  have hsplit : l = (l.reverse.dropWhile p).reverse ++ (l.reverse.takeWhile p).reverse := by
    rw [← List.reverse_append, List.takeWhile_append_dropWhile, List.reverse_reverse]
  have htake : l.take (l.length - ((l.reverse.takeWhile p).reverse).length)
      = (l.reverse.dropWhile p).reverse := by
    have hlen : l.length = (l.reverse.dropWhile p).reverse.length
        + (l.reverse.takeWhile p).reverse.length := by
      conv_lhs => rw [hsplit]
      exact List.length_append _ _
    rw [hlen, Nat.add_sub_cancel]
    have h := @List.take_left' Char (l.reverse.dropWhile p).reverse
      (l.reverse.takeWhile p).reverse (l.reverse.dropWhile p).reverse.length rfl
    rwa [← hsplit] at h
  refine ⟨?_, ?_, ?_⟩
  · rw [htake]; exact hsplit
  · intro c hc
    rw [List.mem_reverse] at hc
    exact List.mem_takeWhile_imp hc
  · intro c hc
    rw [htake, List.getLast?_reverse] at hc
    have := List.head?_dropWhile_not p l.reverse
    rw [hc] at this
    exact this

/-- C20: for every raw key `k` and raw value `v`, `Opcode{k, v}` is built (the
constructor is total); `value` is `v` verbatim; `k` is the name followed by a
run of decimal digits, the name does not end in a digit (so the run is the
maximal trailing one, underscores staying in the name); `parameter` is the
number the run denotes when the run is not empty and is empty otherwise; and the
four constructions of the test give `sample` without parameter,
`sample_underscore` without parameter, `sample` with 123 and `sample_underscore`
with 123. -/
theorem opcode_key_splitting (k v : String) :
    (Opcode.parse k v).value = v
      ∧ k.data = (Opcode.parse k v).opcode.data ++ trailing_digits k.data
      ∧ (∀ c ∈ trailing_digits k.data, c.isDigit = true)
      ∧ (∀ c, (Opcode.parse k v).opcode.data.getLast? = some c → c.isDigit = false)
      ∧ (Opcode.parse k v).parameter
          = (if trailing_digits k.data = [] then none
             else some (decimal_value (trailing_digits k.data)))
      ∧ Opcode.parse "sample" "dummy"
          = { opcode := "sample", parameter := none, value := "dummy" }
      ∧ Opcode.parse "sample_underscore" "dummy"
          = { opcode := "sample_underscore", parameter := none, value := "dummy" }
      ∧ Opcode.parse "sample123" "dummy"
          = { opcode := "sample", parameter := some 123, value := "dummy" }
      ∧ Opcode.parse "sample_underscore123" "dummy"
          = { opcode := "sample_underscore", parameter := some 123, value := "dummy" } := by
  obtain ⟨h1, h2, h3⟩ := list_split_trailing Char.isDigit k.data
  exact ⟨rfl, h1, h2, h3, rfl, by decide, by decide, by decide, by decide⟩

theorem note_names_in_range :
    ∀ letter ∈ note_letters, ∀ accidental ∈ accidentals, ∀ i ∈ List.range 12,
      readNoteValue (note_text letter accidental ((i : Int) - 2))
        = expected_note letter accidental ((i : Int) - 2) := by
  decide

theorem note_number_le (semitone accidental : Int) (rest : List Char) (v : Nat)
    (h : note_number semitone accidental rest = some v) : v ≤ 127 := by
  unfold note_number at h
  cases hr : read_octave rest with
  | none => simp [hr] at h
  | some octave =>
    simp only [hr] at h
    split_ifs at h with hv
    simp only [Option.some.injEq] at h
    omega

theorem note_semitone_range (letter : Char) (s : Int) (h : note_semitone letter = some s) :
    0 ≤ s ∧ s ≤ 11 := by
  unfold note_semitone at h
  split_ifs at h <;> simp only [Option.some.injEq] at h <;> omega

/-- C21: for every note letter in A-G of either case, every accidental (none, `#` =
+1, `b` = -1) and every signed octave `o` whose result lies in `0..127`,
`readNoteValue` returns `12 * (o + 1) + semitone + accidental` with the
semitones C=0, D=2, E=4, F=5, G=7, A=9, B=11; the result does not depend on the
case of the letter; `c-1`, `C-1` give 0, `g9`, `G9` give 127, `c#4`, `C#4` give
61; every returned value is at most 127; and texts that are not note names (or
name a note above 127) give an empty result. -/
theorem note_name_parsing :
    (∀ letter ∈ note_letters, ∀ accidental ∈ accidentals, ∀ (octave semitone : Int),
        note_semitone letter = some semitone →
        0 ≤ 12 * (octave + 1) + semitone + accidental_offset accidental →
        12 * (octave + 1) + semitone + accidental_offset accidental ≤ 127 →
        readNoteValue (note_text letter accidental octave)
          = some (12 * (octave + 1) + semitone + accidental_offset accidental).toNat)
      ∧ (note_semitone 'C' = some 0 ∧ note_semitone 'D' = some 2 ∧ note_semitone 'E' = some 4
          ∧ note_semitone 'F' = some 5 ∧ note_semitone 'G' = some 7
          ∧ note_semitone 'A' = some 9 ∧ note_semitone 'B' = some 11)
      ∧ (∀ letter ∈ note_letters, note_semitone letter.toLower = note_semitone letter.toUpper)
      ∧ (∀ (letter : Char) (rest : List Char),
          note_semitone letter.toLower = note_semitone letter.toUpper →
          readNoteValue (String.mk (letter.toLower :: rest))
            = readNoteValue (String.mk (letter.toUpper :: rest)))
      ∧ (readNoteValue "c-1" = some 0 ∧ readNoteValue "C-1" = some 0
          ∧ readNoteValue "g9" = some 127 ∧ readNoteValue "G9" = some 127
          ∧ readNoteValue "c#4" = some 61 ∧ readNoteValue "C#4" = some 61)
      ∧ (∀ (text : String) (v : Nat), readNoteValue text = some v → v ≤ 127)
      ∧ (readNoteValue "" = none ∧ readNoteValue "h4" = none ∧ readNoteValue "c" = none
          ∧ readNoteValue "c#" = none ∧ readNoteValue "c4x" = none ∧ readNoteValue "4" = none
          ∧ readNoteValue "g#9" = none) := by
  refine ⟨?_, by decide, by decide, ?_, by decide, ?_, by decide⟩
  · intro letter hl accidental ha octave semitone hs hlow hhigh
    obtain ⟨s0, s1⟩ := note_semitone_range letter semitone hs
    have hacc : -1 ≤ accidental_offset accidental ∧ accidental_offset accidental ≤ 1 := by
      simp only [accidentals, List.mem_cons, List.mem_singleton, List.not_mem_nil,
        or_false] at ha
      rcases ha with rfl | rfl | rfl <;> decide
    have hi : (octave + 2).toNat ∈ List.range 12 := by
      rw [List.mem_range]; omega
    have ho : (((octave + 2).toNat : Nat) : Int) - 2 = octave := by omega
    have h := note_names_in_range letter hl accidental ha _ hi
    rw [ho] at h
    rw [h]
    unfold expected_note
    simp only [hs]
    rw [if_pos ⟨hlow, hhigh⟩]
  · intro letter rest h
    unfold readNoteValue
    simp only [h]
  · intro text v h
    unfold readNoteValue at h
    cases ht : text.data with
    | nil => simp [ht] at h
    | cons letter rest =>
      simp only [ht] at h
      cases hs : note_semitone letter with
      | none => simp [hs] at h
      | some semitone =>
        simp only [hs] at h
        split at h
        · exact note_number_le _ _ _ v h
        · exact note_number_le _ _ _ v h
        · exact note_number_le _ _ _ v h

/-- C20 (witness): the key `sample123`. -/
theorem opcode_key_splitting_witness :
    (Opcode.parse "sample123" "dummy").value = "dummy"
      ∧ "sample123".data = (Opcode.parse "sample123" "dummy").opcode.data
          ++ trailing_digits "sample123".data :=
  have h := opcode_key_splitting "sample123" "dummy"
  ⟨h.1, h.2.1⟩

/-- C21 (witness): B flat in octave 4. -/
theorem note_name_parsing_witness :
    readNoteValue (note_text 'b' (some 'b') 4)
      = some (12 * (4 + 1) + 11 + accidental_offset (some 'b')).toNat :=
  note_name_parsing.1 'b' (by decide) (some 'b') (by decide) 4 11 rfl (by decide) (by decide)

/-- C22: for every envelope state (so after any `reset`, with or without a following
`startRelease`, and for the idle envelope) and every buffer, `getBlock` writes
as many values as the buffer is long, the `i`-th being the value the `i`-th of
that many successive `getNextValue` calls returns from the same starting state,
and leaves the envelope in the state those calls leave it in. -/
theorem block_equals_samples (curve : SegmentCurve) (e : ADSREnvelope) (buffer : List ℚ) :
    (e.getBlock curve buffer).1
        = (List.range buffer.length).map (fun i => e.nth_value curve (i + 1))
      ∧ (e.getBlock curve buffer).1.length = buffer.length
      ∧ (e.getBlock curve buffer).2 = e.advance curve buffer.length := by
  induction buffer generalizing e with
  | nil => exact ⟨rfl, rfl, rfl⟩
  | cons b rest ih =>
    obtain ⟨h1, h2, h3⟩ := ih (e.getNextValue curve).2
    refine ⟨?_, ?_, ?_⟩
    · simp only [ADSREnvelope.getBlock, List.length_cons, List.range_succ_eq_map, List.map_cons,
        List.map_map, h1]
      rfl
    · simp only [ADSREnvelope.getBlock, List.length_cons, h2]
    · simp only [ADSREnvelope.getBlock, List.length_cons, h3]
      rfl

theorem attack_first (curve : SegmentCurve) (n : Nat) (hn : 1 ≤ n) :
    (ADSREnvelope.idle.reset n 0 1 0 0 0 0).getNextValue curve = ((1 : ℚ) / n, attack_state n 1) := by
  have h0 : 0 < n := hn
  simp [ADSREnvelope.getNextValue, ADSREnvelope.tick, ADSREnvelope.settle,
    ADSREnvelope.after_delay, ADSREnvelope.emit, ADSREnvelope.reset, attack_state, h0]

theorem attack_next (curve : SegmentCurve) (n j : Nat) (hj : j < n) :
    (attack_state n j).getNextValue curve = (((j + 1 : Nat) : ℚ) / n, attack_state n (j + 1)) := by
  have h0 : n - j ≠ 0 := by omega
  have hq : (j : ℚ) / n + (n : ℚ)⁻¹ = ((j : ℚ) + 1) / n := by ring
  simp [ADSREnvelope.getNextValue, ADSREnvelope.tick, ADSREnvelope.settle, ADSREnvelope.emit,
    attack_state, h0, hq, Nat.sub_sub]

theorem attack_last (curve : SegmentCurve) (n : Nat) :
    (attack_state n n).getNextValue curve = (1, sustain_state n) := by
  simp [ADSREnvelope.getNextValue, ADSREnvelope.tick, ADSREnvelope.settle,
    ADSREnvelope.after_attack, ADSREnvelope.after_hold, ADSREnvelope.to_sustain,
    ADSREnvelope.emit, attack_state, sustain_state]

theorem sustain_next (curve : SegmentCurve) (n : Nat) :
    (sustain_state n).getNextValue curve = (1, sustain_state n) := by
  simp [ADSREnvelope.getNextValue, ADSREnvelope.tick, ADSREnvelope.settle, ADSREnvelope.emit,
    sustain_state]

theorem idle_next (curve : SegmentCurve) :
    ADSREnvelope.idle.getNextValue curve = (0, ADSREnvelope.idle) := by
  simp [ADSREnvelope.getNextValue, ADSREnvelope.tick, ADSREnvelope.settle, ADSREnvelope.emit,
    ADSREnvelope.idle]

theorem advance_idle (curve : SegmentCurve) (k : Nat) :
    ADSREnvelope.idle.advance curve k = ADSREnvelope.idle := by
  induction k with
  | zero => rfl
  | succ k ih => simp only [ADSREnvelope.advance, idle_next, ih]

theorem advance_sustain (curve : SegmentCurve) (n k : Nat) :
    (sustain_state n).advance curve k = sustain_state n := by
  induction k with
  | zero => rfl
  | succ k ih => simp only [ADSREnvelope.advance, sustain_next, ih]

theorem advance_attack (curve : SegmentCurve) (n : Nat) (k j : Nat) (hj : j ≤ n) :
    (attack_state n j).advance curve k
      = if j + k ≤ n then attack_state n (j + k) else sustain_state n := by
  induction k generalizing j with
  | zero => simp [ADSREnvelope.advance, hj]
  | succ k ih =>
    by_cases h : j < n
    · simp only [ADSREnvelope.advance, attack_next curve n j h]
      rw [ih (j + 1) h]
      have : j + 1 + k = j + (k + 1) := by omega
      rw [this]
    · have hjn : j = n := by omega
      subst hjn
      simp only [ADSREnvelope.advance, attack_last, advance_sustain]
      rw [if_neg (by omega)]

theorem advance_reset (curve : SegmentCurve) (n k : Nat) (hn : 1 ≤ n) :
    (ADSREnvelope.idle.reset n 0 1 0 0 0 0).advance curve (k + 1)
      = if k + 1 ≤ n then attack_state n (k + 1) else sustain_state n := by
  simp only [ADSREnvelope.advance, attack_first curve n hn]
  rw [advance_attack curve n k 1 hn]
  have : 1 + k = k + 1 := by omega
  rw [this]

/-- C23: for every attack length `n >= 1`, after `reset(n, 0)` on a fresh envelope
the `k`-th value returned by `getNextValue` is `k / n` for `1 <= k <= n` and 1
for `k > n`; for `n = 2` the first five values are 1/2, 1, 1, 1, 1 and for `n =
3` they are 1/3, 2/3, 1, 1, 1; and an envelope that was never reset returns 0 on
every call. -/
theorem linear_attack_ramp (curve : SegmentCurve) (n k : Nat) (hn : 1 ≤ n) (hk : 1 ≤ k) :
    (ADSREnvelope.idle.reset n 0 1 0 0 0 0).nth_value curve k
        = (if k ≤ n then (k : ℚ) / n else 1)
      ∧ (List.range 5).map (fun i => (ADSREnvelope.idle.reset 2 0 1 0 0 0 0).nth_value curve (i + 1))
        = [1 / 2, 1, 1, 1, 1]
      ∧ (List.range 5).map (fun i => (ADSREnvelope.idle.reset 3 0 1 0 0 0 0).nth_value curve (i + 1))
        = [1 / 3, 2 / 3, 1, 1, 1]
      ∧ ADSREnvelope.idle.nth_value curve k = 0 := by
  have key : ∀ (m i : Nat), 1 ≤ m → 1 ≤ i →
      (ADSREnvelope.idle.reset m 0 1 0 0 0 0).nth_value curve i
        = (if i ≤ m then (i : ℚ) / m else 1) := by
    intro m i hm hi
    obtain ⟨i, rfl⟩ : ∃ i0, i = i0 + 1 := ⟨i - 1, by omega⟩
    cases i with
    | zero =>
      simp only [ADSREnvelope.nth_value, ADSREnvelope.advance, attack_first curve m hm]
      rw [if_pos (by omega)]
      norm_num
    | succ i =>
      simp only [ADSREnvelope.nth_value]
      rw [advance_reset curve m i hm]
      by_cases h : i + 1 < m
      · rw [if_pos (by omega), attack_next curve m (i + 1) h, if_pos (by omega)]
      · by_cases h2 : i + 1 = m
        · rw [if_pos (by omega), h2, attack_last, if_neg (by omega)]
        · rw [if_neg (by omega), sustain_next, if_neg (by omega)]
  refine ⟨key n k hn hk, ?_, ?_, ?_⟩
  · simp only [List.range, List.range.loop, List.map]
    rw [key 2 1 (by decide) (by decide), key 2 2 (by decide) (by decide),
      key 2 3 (by decide) (by decide), key 2 4 (by decide) (by decide),
      key 2 5 (by decide) (by decide)]
    norm_num
  · simp only [List.range, List.range.loop, List.map]
    rw [key 3 1 (by decide) (by decide), key 3 2 (by decide) (by decide),
      key 3 3 (by decide) (by decide), key 3 4 (by decide) (by decide),
      key 3 5 (by decide) (by decide)]
    norm_num
  · obtain ⟨i, rfl⟩ : ∃ i0, k = i0 + 1 := ⟨k - 1, by omega⟩
    simp only [ADSREnvelope.nth_value, advance_idle, idle_next]

/-- C23 (witness): the third sample of an attack of four. -/
theorem linear_attack_ramp_witness :
    (ADSREnvelope.idle.reset 4 0 1 0 0 0 0).nth_value sampleCurve 3
      = (if 3 ≤ 4 then ((3 : Nat) : ℚ) / ((4 : Nat) : ℚ) else 1) :=
  (linear_attack_ramp sampleCurve 4 3 (by decide) (by decide)).1

/-- C22 (witness): a block of three samples after `reset(2, 4)`. -/
theorem block_equals_samples_witness :
    ((ADSREnvelope.idle.reset 2 4 1 0 0 0 0).getBlock sampleCurve [0, 0, 0]).2
      = (ADSREnvelope.idle.reset 2 4 1 0 0 0 0).advance sampleCurve 3 :=
  (block_equals_samples sampleCurve (ADSREnvelope.idle.reset 2 4 1 0 0 0 0) [0, 0, 0]).2.2

end Sfizz
